import Mathlib

/-
  Verification of the gravity-sim physics engine.

  Shallow embedding of the engine sources:
    - src/shared/config/PhysicsConfig.js   (constants, density helpers)
    - src/engine/systems/CollisionResolver.js
    - src/engine/World.js
    - src/engine/systems/Dynamics.js
    - src/engine/Body.js
    - src/core/quadtree.js                 (quadtree: nodes, insert, query, force)

  JavaScript numbers are modelled as real numbers; Math.sqrt, Math.hypot,
  Math.cos/sin/atan2 become their Mathlib counterparts; Math.random() calls
  are modelled by an explicit stream `rand : Nat -> Real` threaded through
  the fragment loops, so every theorem quantifies over the random draws.
-/

noncomputable section

open Real

/-- 2D vector value (shared/math/Vec2.js, core/vector2.js).
Modelled from the spec: shared/math/Vec2.js is absent from the dump; per
spec section 4.1 it is a plain mutable (x, y) pair whose instance pool is a
GC mitigation with no observable semantics, so vectors are immutable pairs
here and pool acquire/release is plain allocation. -/
structure Vec2 where
  x : ℝ
  y : ℝ
deriving DecidableEq

/-- JS Math.hypot on two arguments. -/
def hypot (x y : ℝ) : ℝ := Real.sqrt (x * x + y * y)

/-- JS Math.atan2(y, x), i.e. the argument of the complex number x + iy. -/
def atan2 (y x : ℝ) : ℝ := Complex.arg ⟨x, y⟩

/-- JS Math.round: round half up. -/
def jsRound (x : ℝ) : ℤ := Int.floor (x + 1/2)

/-- JS `a || b` on numbers (over the reals: b when a = 0, else a). -/
def jsOr (a b : ℝ) : ℝ := if a = 0 then b else a

/-- JS Math.pow(m, 1.5); for m ≥ 0 this equals m·√m, which is how it is
used by the resolver (masses are positive). -/
def pow15 (m : ℝ) : ℝ := m * Real.sqrt m

/-- clamp from shared/math/MathUtils.js.
Modelled from the spec: shared/math/MathUtils.js is absent from the dump;
this follows the identical in-repo helper `clamp` in src/utils/utils.js:
Math.max(min, Math.min(max, value)). -/
def clamp (value lo hi : ℝ) : ℝ := max lo (min hi value)

/-- Escape velocity helper from shared/math/MathUtils.js.
Modelled from the spec: shared/math/MathUtils.js is absent from the dump;
follows spec section 4.4 ("escape velocity from combined mass, larger
radius, and softening") and the identical in-repo helper
`computeEscapeVelocity` in src/utils/physicsUtils.js:
v = sqrt(2 G M / (radius + softening)), 0 when the denominator is ≤ 0. -/
def computeEscapeVelocity (G totalMass radius softening : ℝ) : ℝ :=
  let denom := radius + softening
  if denom ≤ 0 then 0 else Real.sqrt ((2 * G * totalMass) / denom)

namespace PHYSICS

/-- PhysicsConfig.js GRAVITY_CONSTANT -/
def GRAVITY_CONSTANT : ℝ := 60
/-- PhysicsConfig.js SOFTENING -/
def SOFTENING : ℝ := 8
/-- PhysicsConfig.js MAX_BODIES -/
def MAX_BODIES : ℕ := 1000
/-- PhysicsConfig.js MAX_DEPTH -/
def MAX_DEPTH : ℕ := 16
/-- PhysicsConfig.js SEARCH_PADDING -/
def SEARCH_PADDING : ℝ := 10
/-- PhysicsConfig.js MAX_FRAGMENTS -/
def MAX_FRAGMENTS : ℤ := 10
/-- PhysicsConfig.js VAPORIZE_THRESHOLD -/
def VAPORIZE_THRESHOLD : ℝ := 100
/-- PhysicsConfig.js MIN_GRAVITY_MASS -/
def MIN_GRAVITY_MASS : ℝ := 5
/-- PhysicsConfig.js DEBRIS_EXTRA_KICK -/
def DEBRIS_EXTRA_KICK : ℝ := 5
/-- PhysicsConfig.js MASS_RATIO_BIG -/
def MASS_RATIO_BIG : ℝ := 4
/-- PhysicsConfig.js ALPHA_MERGE -/
def ALPHA_MERGE : ℝ := 0.25
/-- PhysicsConfig.js DENSITY_2D = 0.5 * Math.PI -/
def DENSITY_2D : ℝ := 0.5 * Real.pi
/-- PhysicsConfig.js TRAIL_LENGTH -/
def TRAIL_LENGTH : ℤ := 1000
/-- PhysicsConfig.js TRAIL_INTERVAL -/
def TRAIL_INTERVAL : ℕ := 2
/-- PhysicsConfig.js MIN_TRAIL_DISTANCE_SQ -/
def MIN_TRAIL_DISTANCE_SQ : ℝ := 16

end PHYSICS

/-- PhysicsConfig.js massFromRadius: DENSITY_2D * radius * radius. -/
def massFromRadius (radius : ℝ) : ℝ := PHYSICS.DENSITY_2D * radius * radius

/-- PhysicsConfig.js radiusFromMass: sqrt(mass / DENSITY_2D). -/
def radiusFromMass (mass : ℝ) : ℝ := Real.sqrt (mass / PHYSICS.DENSITY_2D)

/-- Debris shard descriptor. The concrete polygon data produced by
engine/logic/DebrisGenerator.js is cosmetic (spec section 4.5) and built
with the external Delaunator library; only the count contract matters to
the engine, so the payload is reduced to the seed radius. -/
structure DebrisShape where
  seedRadius : ℝ
deriving DecidableEq

/-- Modelled from the spec: generateDelaunayShapes (section 4.5) triangulates
with the external Delaunator dependency and Math.random; the engine relies
only on it returning a nonempty list of shard descriptors, with the count
capped at a hard safety ceiling of 50 and a single-fallback shape when the
requested count is unusable. -/
def generateDelaunayShapes (radius : ℝ) (count : ℤ) : List DebrisShape :=
  List.replicate (max 1 (min count.toNat 50)) ⟨radius⟩

/-- engine/Body.js: point-mass body state. Cosmetic fields (color, name)
are omitted: no claim references them. Defaults follow the constructor. -/
structure Body where
  position : Vec2
  velocity : Vec2
  mass : ℝ
  radius : ℝ
  acceleration : Vec2 := ⟨0, 0⟩
  trail : List Vec2 := []
  isDebris : Bool := false
  shape : Option DebrisShape := none
  collisionCooldown : ℝ := 0

instance : DecidableEq Body := fun _ _ => Classical.propDecidable _

instance : Inhabited Body := ⟨{ position := ⟨0, 0⟩, velocity := ⟨0, 0⟩, mass := 1, radius := 4 }⟩

/-- Total mass of a list of bodies. -/
def massTotal (l : List Body) : ℝ := (l.map Body.mass).sum

/-! ## CollisionResolver (engine/systems/CollisionResolver.js)

The resolver's constructor receives G, softening and a time accessor from
the World; they are threaded as explicit parameters `G`, `soft`, `time`.
The straight-line `const` bindings of the source are given as named
definitions so theorems can refer to them. -/

/-- computeOutcome: `ratio = m1 > m2 ? m1 / m2 : m2 / m1`. -/
def jsRatio (b1 b2 : Body) : ℝ :=
  if b1.mass > b2.mass then b1.mass / b2.mass else b2.mass / b1.mass

/-- computeOutcome: `massRatio = m1 >= m2 ? m1 / m2 : m2 / m1`. -/
def massRatioOf (b1 b2 : Body) : ℝ :=
  if b1.mass ≥ b2.mass then b1.mass / b2.mass else b2.mass / b1.mass

/-- computeOutcome: relative speed `Math.hypot(v1.x - v2.x, v1.y - v2.y)`. -/
def relSpeedOf (b1 b2 : Body) : ℝ :=
  hypot (b1.velocity.x - b2.velocity.x) (b1.velocity.y - b2.velocity.y)

/-- computeOutcome: escape velocity from combined mass, the larger radius
and the softening. -/
def escVelOf (G soft : ℝ) (b1 b2 : Body) : ℝ :=
  computeEscapeVelocity G (b1.mass + b2.mass) (max b1.radius b2.radius) soft

/-- computeOutcome: `alpha = vEsc > 1e-6 ? speedRel / vEsc : 0`. -/
def collisionAlpha (G soft : ℝ) (b1 b2 : Body) : ℝ :=
  if escVelOf G soft b1 b2 > 1e-6 then relSpeedOf b1 b2 / escVelOf G soft b1 b2 else 0

/-- computeOutcome: center-of-mass velocity of the pair. -/
def vcmOf (b1 b2 : Body) : Vec2 :=
  ⟨(b1.velocity.x * b1.mass + b2.velocity.x * b2.mass) / (b1.mass + b2.mass),
   (b1.velocity.y * b1.mass + b2.velocity.y * b2.mass) / (b1.mass + b2.mass)⟩

/-- computeOutcome: collision normal (unit vector b1 → b2), with the
zero-distance fallback `dist = r1 + r2 || 1; dx = 1; dy = 0`. -/
def normalOf (b1 b2 : Body) : Vec2 :=
  let dx := b2.position.x - b1.position.x
  let dy := b2.position.y - b1.position.y
  let dist := hypot dx dy
  if dist = 0 then
    ⟨1 / jsOr (b1.radius + b2.radius) 1, 0⟩
  else
    ⟨dx / dist, dy / dist⟩

/-- _createMergedBody: one body at the mass-weighted position/velocity,
mass the exact sum, radius sqrt(r1² + r2²); inherits the dominant parent's
cosmetics (omitted here). -/
def createMergedBody (bi bj : Body) : Body :=
  let totalMass := bi.mass + bj.mass
  { position := ⟨(bi.position.x * bi.mass + bj.position.x * bj.mass) / totalMass,
                 (bi.position.y * bi.mass + bj.position.y * bj.mass) / totalMass⟩
    velocity := ⟨(bi.velocity.x * bi.mass + bj.velocity.x * bj.mass) / totalMass,
                 (bi.velocity.y * bi.mass + bj.velocity.y * bj.mass) / totalMass⟩
    mass := totalMass
    radius := Real.sqrt (bi.radius * bi.radius + bj.radius * bj.radius) }

namespace BS
/-! _collisionBigSmall quantities (CollisionResolver.js lines 107-207). -/

/-- `destructionFactor = Math.min(1.0, 0.2 + alpha * 0.5)` -/
def destructionFactor (alpha : ℝ) : ℝ := min 1 (0.2 + alpha * 0.5)

/-- `fragmentMassTotal = mSmall * Math.max(0.8, destructionFactor)` -/
def fragmentMassTotal (small : Body) (alpha : ℝ) : ℝ :=
  small.mass * max 0.8 (destructionFactor alpha)

/-- `mergedMass = mBig + (mSmall - fragmentMassTotal)` -/
def mergedMass (big small : Body) (alpha : ℝ) : ℝ :=
  big.mass + (small.mass - fragmentMassTotal small alpha)

/-- `mergedRadius = big.radius * Math.sqrt(mergedMass / mBig)` -/
def mergedRadius (big small : Body) (alpha : ℝ) : ℝ :=
  big.radius * Real.sqrt (mergedMass big small alpha / big.mass)

/-- Impact direction from big to small, with the zero-distance fallback to
the collision normal. -/
def dirOf (big small : Body) (normal : Vec2) : Vec2 :=
  let dx := small.position.x - big.position.x
  let dy := small.position.y - big.position.y
  let dist := hypot dx dy
  if dist = 0 then normal else ⟨dx / dist, dy / dist⟩

/-- The surviving reduced-mass core: center-of-mass position, vcm velocity,
short collision cooldown. -/
def core (time : ℝ) (big small : Body) (alpha : ℝ) (vcm : Vec2) : Body :=
  { position := ⟨(big.position.x * big.mass + small.position.x * small.mass) /
                   (big.mass + small.mass),
                 (big.position.y * big.mass + small.position.y * small.mass) /
                   (big.mass + small.mass)⟩
    velocity := vcm
    mass := mergedMass big small alpha
    radius := mergedRadius big small alpha
    collisionCooldown := time + 0.5 }

/-- `fragCount = Math.min(MAX_FRAGMENTS, Math.max(6, Math.round(10 + alpha * 8)))` -/
def fragCount (alpha : ℝ) : ℤ :=
  min PHYSICS.MAX_FRAGMENTS (max 6 (jsRound (10 + alpha * 8)))

/-- `singleFragMass = fragmentMassTotal / fragCount` -/
def singleFragMass (small : Body) (alpha : ℝ) : ℝ :=
  fragmentMassTotal small alpha / (fragCount alpha : ℝ)

/-- One debris fragment of the crater ring (loop body of _collisionBigSmall);
the four Math.random() draws of iteration k are rand (4k) .. rand (4k+3). -/
def mkFrag (time : ℝ) (big small : Body) (alpha : ℝ) (normal vcm : Vec2)
    (rand : ℕ → ℝ) (k : ℕ) : Body :=
  let dir := dirOf big small normal
  let contactPointX := big.position.x + dir.x * big.radius
  let contactPointY := big.position.y + dir.y * big.radius
  let tanX := -dir.y
  let tanY := dir.x
  let fragRadius := radiusFromMass (singleFragMass small alpha)
  let baseKick := alpha * 0.6 * PHYSICS.DEBRIS_EXTRA_KICK
  let baseAngle := atan2 dir.y dir.x
  let debrisShapes := generateDelaunayShapes (radiusFromMass small.mass) (fragCount alpha)
  let impactSpreadWidth := small.radius * 2.5
  let spreadAngle := Real.pi / 3
  let angleOffset := (rand (4 * k) - 0.5) * spreadAngle
  let angle := baseAngle + angleOffset
  let dirFragX := Real.cos angle
  let dirFragY := Real.sin angle
  let speedJitter := 0.5 + 1.0 * rand (4 * k + 1)
  let lateralOffset := (rand (4 * k + 2) - 0.5) * impactSpreadWidth
  let outwardOffset := fragRadius + 2.0 + rand (4 * k + 3) * small.radius * 0.5
  { position := ⟨contactPointX + dir.x * outwardOffset + tanX * lateralOffset,
                 contactPointY + dir.y * outwardOffset + tanY * lateralOffset⟩
    velocity := ⟨vcm.x + dirFragX * baseKick * speedJitter,
                 vcm.y + dirFragY * baseKick * speedJitter⟩
    mass := singleFragMass small alpha
    radius := fragRadius
    isDebris := true
    shape := some (debrisShapes.getD (k % debrisShapes.length) ⟨0⟩)
    collisionCooldown := time + 0.5 }

end BS

/-- _collisionBigSmall: the heavy body survives as a reduced-mass core;
unless vaporized, the light body's lost mass becomes a cone of debris. -/
def collisionBigSmall (time : ℝ) (big small : Body) (alpha : ℝ)
    (normal vcm : Vec2) (rand : ℕ → ℝ) : List Body :=
  if alpha > PHYSICS.VAPORIZE_THRESHOLD ∨ BS.fragmentMassTotal small alpha ≤ 0 ∨
      BS.mergedRadius big small alpha ≤ 0 then
    [BS.core time big small alpha vcm]
  else if BS.fragmentMassTotal small alpha > 0 then
    BS.core time big small alpha vcm ::
      (List.range (BS.fragCount alpha).toNat).map
        (BS.mkFrag time big small alpha normal vcm rand)
  else
    [BS.core time big small alpha vcm]

namespace FB
/-! _fragmentBoth quantities (CollisionResolver.js lines 209-330). -/

/-- `damage1 = m2 / Math.pow(m1 || 1, 1.5)` -/
def damage1 (b1 b2 : Body) : ℝ := b2.mass / pow15 (jsOr b1.mass 1)

/-- `damage2 = m1 / Math.pow(m2 || 1, 1.5)` -/
def damage2 (b1 b2 : Body) : ℝ := b1.mass / pow15 (jsOr b2.mass 1)

/-- `damageSum = damage1 + damage2 || 1` -/
def damageSum (b1 b2 : Body) : ℝ := jsOr (damage1 b1 b2 + damage2 b1 b2) 1

/-- `baseLoss = clamp(0.5 + 0.35 * (alpha - 2.0), 0.15, 0.9)` -/
def baseLoss (alpha : ℝ) : ℝ := clamp (0.5 + 0.35 * (alpha - 2.0)) 0.15 0.9

/-- `lostMass1 = Math.min(fracLoss1 * m1, 0.9 * m1)` -/
def lostMass1 (b1 b2 : Body) (alpha : ℝ) : ℝ :=
  min (baseLoss alpha * (damage1 b1 b2 / damageSum b1 b2) * b1.mass) (0.9 * b1.mass)

/-- `lostMass2 = Math.min(fracLoss2 * m2, 0.9 * m2)` -/
def lostMass2 (b1 b2 : Body) (alpha : ℝ) : ℝ :=
  min (baseLoss alpha * (damage2 b1 b2 / damageSum b1 b2) * b2.mass) (0.9 * b2.mass)

/-- `coreMass1 = m1 - lostMass1` -/
def coreMass1 (b1 b2 : Body) (alpha : ℝ) : ℝ := b1.mass - lostMass1 b1 b2 alpha

/-- `coreMass2 = m2 - lostMass2` -/
def coreMass2 (b1 b2 : Body) (alpha : ℝ) : ℝ := b2.mass - lostMass2 b1 b2 alpha

/-- Surviving core of body 1: original position, vcm velocity, cooldown. -/
def core1 (time : ℝ) (b1 b2 : Body) (alpha : ℝ) (vcm : Vec2) : Body :=
  { position := ⟨b1.position.x, b1.position.y⟩
    velocity := vcm
    mass := coreMass1 b1 b2 alpha
    radius := radiusFromMass (coreMass1 b1 b2 alpha)
    collisionCooldown := time + 0.5 }

/-- Surviving core of body 2. -/
def core2 (time : ℝ) (b1 b2 : Body) (alpha : ℝ) (vcm : Vec2) : Body :=
  { position := ⟨b2.position.x, b2.position.y⟩
    velocity := vcm
    mass := coreMass2 b1 b2 alpha
    radius := radiusFromMass (coreMass2 b1 b2 alpha)
    collisionCooldown := time + 0.5 }

/-- `fragmentMassTotal = lostMass1 + lostMass2` -/
def fragmentMassTotal (b1 b2 : Body) (alpha : ℝ) : ℝ :=
  lostMass1 b1 b2 alpha + lostMass2 b1 b2 alpha

/-- `MIN_FRAG_RADIUS = Math.max(1.2, 0.12 * Math.min(r1, r2))` -/
def minFragRadius (b1 b2 : Body) : ℝ := max 1.2 (0.12 * min b1.radius b2.radius)

/-- `minFragMass = Math.max(massFromRadius(MIN_FRAG_RADIUS), 1e-8)` -/
def minFragMass (b1 b2 : Body) : ℝ := max (massFromRadius (minFragRadius b1 b2)) 1e-8

/-- `maxByMass = Math.max(3, Math.floor(fragmentMassTotal / minFragMass))` -/
def maxByMass (b1 b2 : Body) (alpha : ℝ) : ℤ :=
  max 3 (Int.floor (fragmentMassTotal b1 b2 alpha / minFragMass b1 b2))

/-- `fragCount = min(MAX_FRAGMENTS, max(6, min(maxByMass, round(6 + alpha*2))))` -/
def fragCount (b1 b2 : Body) (alpha : ℝ) : ℤ :=
  min PHYSICS.MAX_FRAGMENTS
    (max 6 (min (maxByMass b1 b2 alpha) (jsRound (6 + alpha * 2))))

/-- `singleFragMass = fragmentMassTotal / fragCount` -/
def singleFragMass (b1 b2 : Body) (alpha : ℝ) : ℝ :=
  fragmentMassTotal b1 b2 alpha / (fragCount b1 b2 alpha : ℝ)

/-- Contact midpoint between the two facing surfaces. -/
def contactPoint (b1 b2 : Body) (normal : Vec2) : Vec2 :=
  ⟨((b1.position.x + normal.x * b1.radius) + (b2.position.x - normal.x * b2.radius)) / 2,
   ((b1.position.y + normal.y * b1.radius) + (b2.position.y - normal.y * b2.radius)) / 2⟩

/-- `baseKick = min(alpha * 0.7 * DEBRIS_EXTRA_KICK, vEscLocal + 0.8 * vRelN)` -/
def baseKick (G : ℝ) (b1 b2 : Body) (alpha : ℝ) (normal : Vec2) : ℝ :=
  let dvx := b2.velocity.x - b1.velocity.x
  let dvy := b2.velocity.y - b1.velocity.y
  let vRelN := |dvx * normal.x + dvy * normal.y|
  let rLocal := max (b1.radius + b2.radius) 1.0
  let vEscLocal := Real.sqrt ((2 * G * (b1.mass + b2.mass)) / rLocal)
  min (alpha * 0.7 * PHYSICS.DEBRIS_EXTRA_KICK) (vEscLocal + 0.8 * vRelN)

/-- One debris fragment of the mutual-fragmentation ring (loop body of
_fragmentBoth); the three Math.random() draws of iteration k are
rand (3k) .. rand (3k+2). -/
def mkFrag (G time : ℝ) (b1 b2 : Body) (alpha : ℝ) (normal vcm : Vec2)
    (rand : ℕ → ℝ) (k : ℕ) : Body :=
  let n := fragCount b1 b2 alpha
  let cp := contactPoint b1 b2 normal
  let baseOffset := max 1 (0.6 * min b1.radius b2.radius)
  let baseAngle := atan2 normal.y normal.x
  let debrisShapes :=
    generateDelaunayShapes (radiusFromMass (fragmentMassTotal b1 b2 alpha)) n
  let jitterAngle := (rand (3 * k) - 0.5) * (Real.pi / (n : ℝ))
  let angle := baseAngle + (2 * Real.pi * (k : ℝ)) / (n : ℝ) + jitterAngle
  let dirFragX := Real.cos angle
  let dirFragY := Real.sin angle
  let distJitter := 0.8 + 0.6 * rand (3 * k + 1)
  let speedJitter := 0.8 + 0.8 * rand (3 * k + 2)
  { position := ⟨cp.x + dirFragX * baseOffset * distJitter,
                 cp.y + dirFragY * baseOffset * distJitter⟩
    velocity := ⟨vcm.x + dirFragX * baseKick G b1 b2 alpha normal * speedJitter,
                 vcm.y + dirFragY * baseKick G b1 b2 alpha normal * speedJitter⟩
    mass := singleFragMass b1 b2 alpha
    radius := radiusFromMass (singleFragMass b1 b2 alpha)
    isDebris := true
    shape := some (debrisShapes.getD (k % debrisShapes.length) ⟨0⟩)
    collisionCooldown := time + 0.5 }

end FB

/-- The surviving cores of _fragmentBoth: a body keeps its reduced core
only when the surviving mass fraction exceeds CORE_MIN_FRAC = 0.2. -/
def fbCores (time : ℝ) (b1 b2 : Body) (alpha : ℝ) (vcm : Vec2) : List Body :=
  (if FB.coreMass1 b1 b2 alpha / b1.mass > 0.2 then
    [FB.core1 time b1 b2 alpha vcm] else []) ++
  (if FB.coreMass2 b1 b2 alpha / b2.mass > 0.2 then
    [FB.core2 time b1 b2 alpha vcm] else [])

/-- The debris ring of _fragmentBoth. -/
def fbFrags (G time : ℝ) (b1 b2 : Body) (alpha : ℝ) (normal vcm : Vec2)
    (rand : ℕ → ℝ) : List Body :=
  (List.range (FB.fragCount b1 b2 alpha).toNat).map
    (FB.mkFrag G time b1 b2 alpha normal vcm rand)

/-- _fragmentBoth: both bodies lose mass by the asymmetric vulnerability
weighting; a core survives only above the minimum surviving fraction; the
lost mass becomes a ring of debris — all suppressed above the vaporize
threshold. -/
def fragmentBoth (G time : ℝ) (b1 b2 : Body) (alpha : ℝ)
    (normal vcm : Vec2) (rand : ℕ → ℝ) : List Body :=
  if alpha > PHYSICS.VAPORIZE_THRESHOLD then
    []
  else if FB.fragmentMassTotal b1 b2 alpha ≤ 0 then
    fbCores time b1 b2 alpha vcm
  else
    fbCores time b1 b2 alpha vcm ++ fbFrags G time b1 b2 alpha normal vcm rand

/-- computeOutcome (CollisionResolver.js lines 19-83): classify the
collision and synthesize the replacement bodies. `time` is the value of
the injected getTime accessor. -/
def computeOutcome (G soft time : ℝ) (b1 b2 : Body) (rand : ℕ → ℝ) : List Body :=
  if b1.mass + b2.mass ≤ 0 then
    []
  else if jsRatio b1 b2 > 1000 then
    [createMergedBody b1 b2]
  else if collisionAlpha G soft b1 b2 < PHYSICS.ALPHA_MERGE then
    [createMergedBody b1 b2]
  else if massRatioOf b1 b2 > PHYSICS.MASS_RATIO_BIG then
    collisionBigSmall time (if b1.mass ≥ b2.mass then b1 else b2)
      (if b1.mass ≥ b2.mass then b2 else b1) (collisionAlpha G soft b1 b2)
      (normalOf b1 b2) (vcmOf b1 b2) rand
  else
    fragmentBoth G time b1 b2 (collisionAlpha G soft b1 b2)
      (normalOf b1 b2) (vcmOf b1 b2) rand

/-- computeOutcome with the surrounding body store made explicit, to state
its frame property: the method only reads fields of b1 and b2 (referenced
here by their store indices), allocates pooled scratch vectors that it
releases in its `finally` block, and constructs new bodies; it contains no
assignment to any field of b1 or b2 and touches no world-level list, so
the translation returns the store unchanged alongside the outcome of the
pure function. -/
def computeOutcomeST (store : List Body) (i j : ℕ) (G soft time : ℝ)
    (rand : ℕ → ℝ) : List Body × List Body :=
  (store,
   computeOutcome G soft time (store.getD i default) (store.getD j default) rand)

/-! ## Quadtree (core/quadtree.js)

The tree is generic in the stored element so the same embedding serves the
plain-body tree of core/quadtree.js and the index-tagged bodies used by the
World's collision pass (JS distinguishes bodies by object identity; an
index tag models that). The element's position and mass are read through
the `SpatialElem` projections. -/

/-- Projections the quadtree reads from a stored element. -/
class SpatialElem (α : Type) where
  pos : α → Vec2
  elemMass : α → ℝ

instance : SpatialElem Body := ⟨Body.position, Body.mass⟩

instance : SpatialElem (ℕ × Body) := ⟨fun p => p.2.position, fun p => p.2.mass⟩

theorem pos_body (b : Body) : SpatialElem.pos b = b.position := rfl

theorem elemMass_body (b : Body) : SpatialElem.elemMass b = b.mass := rfl

theorem pos_pair (i : ℕ) (b : Body) : SpatialElem.pos (i, b) = b.position := rfl

theorem elemMass_pair (i : ℕ) (b : Body) : SpatialElem.elemMass (i, b) = b.mass := rfl

/-- Quadtree node (core/quadtree.js class Node): square region, aggregate
mass and center of mass, optional leaf body, optional 4 children
(NW, NE, SW, SE). -/
inductive QNode (α : Type) : Type where
  | node (x y size : ℝ) (depth : ℕ) (mass : ℝ) (com : Vec2)
      (body : Option α)
      (children : Option (QNode α × QNode α × QNode α × QNode α)) : QNode α

namespace QNode

variable {α : Type}

def x : QNode α → ℝ | node v _ _ _ _ _ _ _ => v
def y : QNode α → ℝ | node _ v _ _ _ _ _ _ => v
def size : QNode α → ℝ | node _ _ v _ _ _ _ _ => v
def depth : QNode α → ℕ | node _ _ _ v _ _ _ _ => v
def mass : QNode α → ℝ | node _ _ _ _ v _ _ _ => v
def com : QNode α → Vec2 | node _ _ _ _ _ v _ _ => v
def body : QNode α → Option α | node _ _ _ _ _ _ v _ => v
def children : QNode α → Option (QNode α × QNode α × QNode α × QNode α)
  | node _ _ _ _ _ _ _ v => v

/-- A node as produced by the constructor `new Node(x, y, size, depth)` —
identical to the result of `reset(x, y, size, depth)` on a pooled node
(reset overwrites every field with the constructor's values). -/
def fresh (x y size : ℝ) (depth : ℕ) : QNode α :=
  node x y size depth 0 ⟨0, 0⟩ none none

end QNode

/-- The pool of reclaimed nodes (Node.pool). -/
abbrev NodePool (α : Type) : Type := List (QNode α)

/-- Node.pop: reuse a pooled node after reset, or allocate. The returned
node does not depend on the pool because `reset` overwrites every field. -/
def nodePop {α : Type} (pool : NodePool α) (x y size : ℝ) (depth : ℕ) :
    QNode α × NodePool α :=
  match pool with
  | [] => (QNode.fresh x y size depth, [])
  | _ :: rest => (QNode.fresh x y size depth, rest)

/-- Node.reclaim: push this node and (recursively) its children back to the
pool. -/
def reclaim {α : Type} : QNode α → NodePool α → NodePool α
  | QNode.node x y s d m c b (some (c0, c1, c2, c3)), pool =>
      reclaim c3 (reclaim c2 (reclaim c1 (reclaim c0 pool))) ++
        [QNode.node x y s d m c b none]
  | n@(QNode.node _ _ _ _ _ _ _ none), pool => pool ++ [n]

/-- Node._getQuadrant: 0 NW, 1 NE, 2 SW, 3 SE; ties resolve to the higher
quadrant (>=). -/
def getQuadrant {α : Type} [SpatialElem α] (n : QNode α) (b : α) : ℕ :=
  let midX := n.x + n.size / 2
  let midY := n.y + n.size / 2
  let right := (SpatialElem.pos b).x ≥ midX
  let bottom := (SpatialElem.pos b).y ≥ midY
  if ¬right ∧ ¬bottom then 0
  else if right ∧ ¬bottom then 1
  else if ¬right ∧ bottom then 2
  else 3

/-- The mass/center-of-mass folding every insert performs on a visited
node (the first statements of Node.insert). -/
def absorbMass {α : Type} [SpatialElem α] (n : QNode α) (b : α) : QNode α :=
  let totalMass := n.mass + SpatialElem.elemMass b
  let wx := (n.com.x * n.mass + (SpatialElem.pos b).x * SpatialElem.elemMass b) / totalMass
  let wy := (n.com.y * n.mass + (SpatialElem.pos b).y * SpatialElem.elemMass b) / totalMass
  QNode.node n.x n.y n.size n.depth totalMass ⟨wx, wy⟩ n.body n.children

/-- Replace child `q` (0..3) of a children tuple. -/
def setChild {α : Type} (cs : QNode α × QNode α × QNode α × QNode α) (q : ℕ)
    (c : QNode α) : QNode α × QNode α × QNode α × QNode α :=
  match q with
  | 0 => (c, cs.2.1, cs.2.2.1, cs.2.2.2)
  | 1 => (cs.1, c, cs.2.2.1, cs.2.2.2)
  | 2 => (cs.1, cs.2.1, c, cs.2.2.2)
  | _ => (cs.1, cs.2.1, cs.2.2.1, c)

/-- Select child `q` (0..3) of a children tuple. -/
def getChild {α : Type} (cs : QNode α × QNode α × QNode α × QNode α) (q : ℕ) :
    QNode α :=
  match q with
  | 0 => cs.1
  | 1 => cs.2.1
  | 2 => cs.2.2.1
  | _ => cs.2.2.2

/-- Node.insert, threading the node pool used by _subdivide. `fuel` bounds
the recursion depth so the definition is total; `QuadTree.insert` supplies
MAX_DEPTH + 1, which is never exhausted on the trees this module builds,
because every descent and every subdivision step increases the node depth
and subdivision stops at MAX_DEPTH. The fuel-0 fallback absorbs mass only,
like the MAX_DEPTH case. -/
def insertAux {α : Type} [SpatialElem α] :
    ℕ → QNode α → α → NodePool α → QNode α × NodePool α
  | 0, n, b, pool => (absorbMass n b, pool)
  | fuel + 1, n, b, pool =>
    let n' := absorbMass n b
    match n'.children with
    | some cs =>
        -- Case 1: internal node, recurse into the quadrant child.
        let q := getQuadrant n' b
        let r := insertAux fuel (getChild cs q) b pool
        (QNode.node n'.x n'.y n'.size n'.depth n'.mass n'.com n'.body
          (some (setChild cs q r.1)), r.2)
    | none =>
      match n'.body with
      | none =>
          -- Case 2: empty leaf, store the body.
          (QNode.node n'.x n'.y n'.size n'.depth n'.mass n'.com (some b) none, pool)
      | some oldBody =>
          -- Case 3: occupied leaf, subdivide and re-insert both (only
          -- below MAX_DEPTH; at MAX_DEPTH mass is absorbed only).
          if n'.depth < PHYSICS.MAX_DEPTH then
            let half := n'.size / 2
            let nd := n'.depth + 1
            let r0 := nodePop pool n'.x n'.y half nd
            let r1 := nodePop r0.2 (n'.x + half) n'.y half nd
            let r2 := nodePop r1.2 n'.x (n'.y + half) half nd
            let r3 := nodePop r2.2 (n'.x + half) (n'.y + half) half nd
            let cs := (r0.1, r1.1, r2.1, r3.1)
            let oldQ := getQuadrant n' oldBody
            let rOld := insertAux fuel (getChild cs oldQ) oldBody r3.2
            let cs1 := setChild cs oldQ rOld.1
            let newQ := getQuadrant n' b
            let rNew := insertAux fuel (getChild cs1 newQ) b rOld.2
            (QNode.node n'.x n'.y n'.size n'.depth n'.mass n'.com none
              (some (setChild cs1 newQ rNew.1)), rNew.2)
          else
            (n', pool)

/-- Node.query: collect stored bodies of every node whose square intersects
the bounding box of the query circle, accumulating into `found`. -/
def queryNode {α : Type} (cx cy r : ℝ) : QNode α → List α → List α
  | QNode.node x y size _ _ _ body children, found =>
    if cx - r > x + size ∨ cx + r < x ∨ cy - r > y + size ∨ cy + r < y then
      found
    else
      let found1 :=
        match body with
        | some b => found ++ [b]
        | none => found
      match children with
      | some (c0, c1, c2, c3) =>
          queryNode cx cy r c3
            (queryNode cx cy r c2 (queryNode cx cy r c1 (queryNode cx cy r c0 found1)))
      | none => found1

/-- The acceleration contribution _applyGravity adds for an effective mass
at displacement (dx, dy): G·m·vec(r)/(r² + soft²)^1.5. -/
def applyGravityContrib (G soft m dx dy distSq : ℝ) : Vec2 :=
  let invDist3 := 1.0 / ((distSq + soft * soft) * Real.sqrt (distSq + soft * soft))
  ⟨dx * (G * m * invDist3), dy * (G * m * invDist3)⟩

/-- QuadTree._calculateForceRecursive: Barnes–Hut traversal accumulating
acceleration on `b` (self-interaction excluded by identity, here by
element equality on the tagged elements). -/
def calcForce {α : Type} [SpatialElem α] [DecidableEq α] (theta G soft : ℝ) :
    QNode α → α → Vec2 → Vec2
  | QNode.node _ _ size _ mass com body children, b, acc =>
    if mass = 0 ∨ body = some b then acc
    else
      let dx := com.x - (SpatialElem.pos b).x
      let dy := com.y - (SpatialElem.pos b).y
      let distSq := dx * dx + dy * dy
      let dist := Real.sqrt distSq
      let far := size / dist < theta
      match children with
      | some (c0, c1, c2, c3) =>
          if far then
            let f := applyGravityContrib G soft mass dx dy distSq
            ⟨acc.x + f.x, acc.y + f.y⟩
          else if body.isSome then
            let f := applyGravityContrib G soft mass dx dy distSq
            ⟨acc.x + f.x, acc.y + f.y⟩
          else
            calcForce theta G soft c3 b
              (calcForce theta G soft c2 b
                (calcForce theta G soft c1 b (calcForce theta G soft c0 b acc)))
      | none =>
          if body.isSome then
            let f := applyGravityContrib G soft mass dx dy distSq
            ⟨acc.x + f.x, acc.y + f.y⟩
          else
            acc

/-- QuadTree wrapper state: current root and the node pool (the theta
parameter always takes its default 0.5 in this codebase). -/
structure TreeState (α : Type) where
  root : QNode α
  pool : NodePool α

/-- World bounds rectangle. -/
structure Bounds where
  x : ℝ
  y : ℝ
  width : ℝ
  height : ℝ

namespace TreeState

variable {α : Type} [SpatialElem α]

/-- QuadTree.reset: recycle the old structure and re-root at the smallest
square covering the bounds. -/
def reset (ts : TreeState α) (bounds : Bounds) : TreeState α :=
  ⟨(nodePop (reclaim ts.root ts.pool) bounds.x bounds.y
      (max bounds.width bounds.height) 0).1,
   (nodePop (reclaim ts.root ts.pool) bounds.x bounds.y
      (max bounds.width bounds.height) 0).2⟩

/-- QuadTree.insert: insert at the root (fuel MAX_DEPTH + 1, see
insertAux). -/
def insert (ts : TreeState α) (b : α) : TreeState α :=
  ⟨(insertAux (PHYSICS.MAX_DEPTH + 1) ts.root b ts.pool).1,
   (insertAux (PHYSICS.MAX_DEPTH + 1) ts.root b ts.pool).2⟩

/-- Insert a list of bodies in order. -/
def insertAll (ts : TreeState α) (bs : List α) : TreeState α :=
  bs.foldl insert ts

/-- QuadTree.query: all stored bodies within node squares meeting the
circle of radius `r` around (x, y). -/
def query (ts : TreeState α) (x y r : ℝ) : List α :=
  queryNode x y r ts.root []

/-- QuadTree.calculateForce with the default theta = 0.5. -/
def calculateForce [DecidableEq α] (ts : TreeState α) (b : α) (G soft : ℝ) : Vec2 :=
  calcForce 0.5 G soft ts.root b ⟨0, 0⟩

end TreeState

/-! ## Dynamics (engine/systems/Dynamics.js) and World (engine/World.js)

World.js imports its QuadTree from engine/systems/QuadTree.js, which is not
in the dump. Modelled from the spec: per section 4.2 it is the same
Barnes–Hut quadtree as src/core/quadtree.js (same reset/insert/query/
calculateForce interface and algorithm), so the TreeState embedding above
is reused for it, storing index-tagged bodies to model JS object identity.
The EventBus notifications are UI bookkeeping only (spec section 6) and
are not modelled. Math.random() draws of the collision pass are modelled
by a two-level stream: collision resolution initiated by the body at index
i reads the fresh stream `rand i`. -/

/-- Dynamics.integratePosition, per body: Verlet stage 1 plus optional
trail recording. -/
def integrateBody (dt : ℝ) (updateTrail : Bool) (b : Body) : Body :=
  let halfDt := dt * 0.5
  let dtSqHalf := dt * dt * 0.5
  let ax := b.acceleration.x
  let ay := b.acceleration.y
  let px := b.position.x + b.velocity.x * dt + ax * dtSqHalf
  let py := b.position.y + b.velocity.y * dt + ay * dtSqHalf
  let vx := b.velocity.x + ax * halfDt
  let vy := b.velocity.y + ay * halfDt
  let trail :=
    if updateTrail then
      let shouldAdd : Bool :=
        match b.trail.getLast? with
        | none => true
        | some last =>
            decide ((px - last.x) * (px - last.x) + (py - last.y) * (py - last.y) >
              PHYSICS.MIN_TRAIL_DISTANCE_SQ)
      if shouldAdd then
        let t := b.trail ++ [(⟨px, py⟩ : Vec2)]
        if PHYSICS.TRAIL_LENGTH ≠ -1 ∧ (t.length : ℤ) > PHYSICS.TRAIL_LENGTH then
          t.drop 1
        else t
      else b.trail
    else b.trail
  { b with position := ⟨px, py⟩, velocity := ⟨vx, vy⟩, trail := trail }

/-- Dynamics.integrateVelocity, per body: Verlet stage 2. -/
def integrateVel (dt : ℝ) (b : Body) : Body :=
  { b with velocity := ⟨b.velocity.x + b.acceleration.x * (dt * 0.5),
                        b.velocity.y + b.acceleration.y * (dt * 0.5)⟩ }

/-- Dynamics.applyGravity: zero every acceleration, insert mass-eligible
bodies into the gravity tree, then accumulate each body's queried force
into its acceleration. The force loop mutates only accelerations, which
calculateForce never reads, so forces are computed against the post-reset
values as in the source. -/
def applyGravity (bodies : List Body) (tree0 : TreeState (ℕ × Body)) :
    List Body × TreeState (ℕ × Body) :=
  let reset := bodies.map (fun b => { b with acceleration := (⟨0, 0⟩ : Vec2) })
  let tree := reset.enum.foldl
    (fun t ib => if ib.2.mass > PHYSICS.MIN_GRAVITY_MASS then t.insert ib else t) tree0
  let out := reset.enum.map (fun ib =>
    let f := tree.calculateForce ib PHYSICS.GRAVITY_CONSTANT PHYSICS.SOFTENING
    { ib.2 with acceleration := ⟨ib.2.acceleration.x + f.x, ib.2.acceleration.y + f.y⟩ })
  (out, tree)

/-- Forward fold computing the minimum of a list (the Infinity-seeded
min loop of World._updateBoundsAndTrees). -/
def minList (l : List ℝ) : Option ℝ :=
  l.foldl (fun acc v => match acc with | none => some v | some m => some (min m v)) none

/-- Forward fold computing the maximum of a list. -/
def maxList (l : List ℝ) : Option ℝ :=
  l.foldl (fun acc v => match acc with | none => some v | some m => some (max m v)) none

/-- World._updateBoundsAndTrees: bounding box of all positions plus fixed
padding. The fallback is unreachable: step computes bounds only for a
nonempty body list. -/
def worldBounds (bodies : List Body) : Bounds :=
  let pad := PHYSICS.SEARCH_PADDING
  match minList (bodies.map (fun b => b.position.x)),
      maxList (bodies.map (fun b => b.position.x)),
      minList (bodies.map (fun b => b.position.y)),
      maxList (bodies.map (fun b => b.position.y)) with
  | some minX, some maxX, some minY, some maxY =>
      ⟨minX - pad, minY - pad, maxX - minX + pad * 2, maxY - minY + pad * 2⟩
  | _, _, _, _ => ⟨0, 0, 0, 0⟩

/-- Accumulator of the collision pass: dead body indices, generated
bodies, number of resolved collisions. -/
structure ResolveAcc where
  dead : List ℕ
  generated : List Body
  count : ℕ

/-- One iteration of the outer collision loop for the body at index i:
skip dead or debris initiators, query the collision tree around the body,
and resolve against the first neighbor that is a distinct, live,
not-debris-vs-debris, exactly-overlapping partner (the inner loop breaks
after the first resolved collision). -/
def resolveOne (tree : TreeState (ℕ × Body)) (time : ℝ) (rand : ℕ → ℕ → ℝ)
    (acc : ResolveAcc) (ib : ℕ × Body) : ResolveAcc :=
  let i := ib.1
  let bi := ib.2
  if i ∈ acc.dead then acc
  else if bi.isDebris then acc
  else
    let neighbors := tree.query bi.position.x bi.position.y
      (bi.radius + PHYSICS.SEARCH_PADDING)
    match neighbors.find? (fun jb =>
        -- `bi === bj` is JS object identity: equality of snapshot indices.
        decide (¬ib.1 = jb.1) && decide (jb.1 ∉ acc.dead) &&
        !(bi.isDebris && jb.2.isDebris) &&
        decide ((jb.2.position.x - bi.position.x) * (jb.2.position.x - bi.position.x) +
            (jb.2.position.y - bi.position.y) * (jb.2.position.y - bi.position.y) <
          (bi.radius + jb.2.radius) * (bi.radius + jb.2.radius))) with
    | none => acc
    | some jb =>
        let outcome := computeOutcome PHYSICS.GRAVITY_CONSTANT PHYSICS.SOFTENING time
          bi jb.2 (rand i)
        { dead := acc.dead ++ [i, jb.1]
          generated := acc.generated ++ outcome
          count := acc.count + 1 }

/-- World._resolveCollisions, detection part: insert every body into the
collision tree, then run the outer loop over the snapshot. -/
def resolveCollisionsCore (bodies : List Body) (tree0 : TreeState (ℕ × Body))
    (time : ℝ) (rand : ℕ → ℕ → ℝ) : ResolveAcc × TreeState (ℕ × Body) :=
  let tree := tree0.insertAll bodies.enum
  (bodies.enum.foldl (resolveOne tree time rand) ⟨[], [], 0⟩, tree)

/-- World._resolveCollisions, compaction part: remove dead bodies keeping
order, then append generated bodies only while below MAX_BODIES (excess
silently dropped). -/
def compactAppend (bodies : List Body) (dead : List ℕ) (generated : List Body) :
    List Body :=
  let live := (bodies.enum.filter (fun ib => decide (ib.1 ∉ dead))).map (fun ib => ib.2)
  generated.foldl
    (fun bs nb => if bs.length < PHYSICS.MAX_BODIES then bs ++ [nb] else bs) live

/-- World state: live bodies, elapsed time, lifetime collision counter,
trail sampling counter and the two persistent trees. -/
structure WorldState where
  bodies : List Body
  time : ℝ
  collisionCount : ℕ
  stepsSinceLastTrail : ℕ
  gravityTree : TreeState (ℕ × Body)
  collisionTree : TreeState (ℕ × Body)

namespace WorldState

/-- World constructor: empty world, both trees rooted on the unit square. -/
def init : WorldState :=
  ⟨[], 0, 0, 0, ⟨QNode.fresh 0 0 1 0, []⟩, ⟨QNode.fresh 0 0 1 0, []⟩⟩

/-- World.addBody: refuse at capacity, else push. -/
def addBody (w : WorldState) (b : Body) : Bool × WorldState :=
  if w.bodies.length ≥ PHYSICS.MAX_BODIES then (false, w)
  else (true, { w with bodies := w.bodies ++ [b] })

/-- Array.prototype.indexOf: index of the first strictly-equal element,
none when absent (JS returns -1). -/
def indexOfAux (b : Body) : List Body → ℕ → Option ℕ
  | [], _ => none
  | x :: xs, i => if x = b then some i else indexOfAux b xs (i + 1)

/-- World.removeBody: indexOf + splice — remove the first strictly-equal
occurrence, false for a stale reference. -/
def removeBody (w : WorldState) (b : Body) : Bool × WorldState :=
  match indexOfAux b w.bodies 0 with
  | none => (false, w)
  | some i => (true, { w with bodies := w.bodies.eraseIdx i })

/-- World.clear: empty the body list, reset time and the collision
counter. -/
def clear (w : WorldState) : WorldState :=
  { w with bodies := [], time := 0, collisionCount := 0 }

/-- World.step: no-op for dt ≤ 0; empty worlds only advance time;
otherwise integrate positions, rebuild bounds and trees, apply gravity,
finish the velocity integration, resolve collisions and compact, then
advance time. -/
def step (w : WorldState) (dt : ℝ) (rand : ℕ → ℕ → ℝ) : WorldState :=
  if dt ≤ 0 then w
  else if w.bodies = [] then { w with time := w.time + dt }
  else
    let steps := w.stepsSinceLastTrail + 1
    let updateTrail := steps ≥ PHYSICS.TRAIL_INTERVAL
    let steps' := if updateTrail then 0 else steps
    let bodies1 := w.bodies.map (integrateBody dt updateTrail)
    let bounds := worldBounds bodies1
    let gTree0 := w.gravityTree.reset bounds
    let cTree0 := w.collisionTree.reset bounds
    let gRes := applyGravity bodies1 gTree0
    let bodies3 := gRes.1.map (integrateVel dt)
    let cRes := resolveCollisionsCore bodies3 cTree0 w.time rand
    let acc := cRes.1
    let bodies4 :=
      if acc.dead ≠ [] ∨ acc.generated ≠ [] then
        compactAppend bodies3 acc.dead acc.generated
      else bodies3
    { bodies := bodies4
      time := w.time + dt
      collisionCount := w.collisionCount + acc.count
      stepsSinceLastTrail := steps'
      gravityTree := gRes.2
      collisionTree := cRes.2 }

end WorldState

/-! ## Helper lemmas -/

theorem WorldState.indexOfAux_none_iff (b : Body) :
    ∀ (l : List Body) (s : ℕ), WorldState.indexOfAux b l s = none ↔ b ∉ l := by
  intro l
  induction l with
  | nil => intro s; simp [WorldState.indexOfAux]
  | cons x xs ih =>
      intro s
      by_cases h : x = b
      · simp [WorldState.indexOfAux, h]
      · simp only [WorldState.indexOfAux, if_neg h, ih, List.mem_cons, not_or]
        constructor
        · intro hx; exact ⟨fun hb => h hb.symm, hx⟩
        · intro hx; exact hx.2

theorem WorldState.indexOfAux_some (b : Body) :
    ∀ (l : List Body) (s j : ℕ), WorldState.indexOfAux b l s = some j →
      ∃ l1 l2, l = l1 ++ b :: l2 ∧ b ∉ l1 ∧ l1.length + s = j ∧
        l.eraseIdx (j - s) = l1 ++ l2 := by
  intro l
  induction l with
  | nil => intro s j h; simp [WorldState.indexOfAux] at h
  | cons x xs ih =>
      intro s j h
      by_cases hx : x = b
      · rw [WorldState.indexOfAux, if_pos hx] at h
        obtain rfl : s = j := by simpa using h
        exact ⟨[], xs, by simp [hx], by simp, by simp, by simp⟩
      · rw [WorldState.indexOfAux, if_neg hx] at h
        obtain ⟨l1, l2, hsplit, hnot, hlen, herase⟩ := ih (s + 1) j h
        refine ⟨x :: l1, l2, by simp [hsplit], ?_, by simp; omega, ?_⟩
        · simp only [List.mem_cons, not_or]
          exact ⟨fun hb => hx hb.symm, hnot⟩
        · have hj : j - s = (j - (s + 1)) + 1 := by omega
          rw [hj, List.eraseIdx_cons_succ, herase]
          simp

theorem compactAppend_length_le (bodies : List Body) (dead : List ℕ)
    (generated : List Body) (h : bodies.length ≤ PHYSICS.MAX_BODIES) :
    (compactAppend bodies dead generated).length ≤ PHYSICS.MAX_BODIES := by
  unfold compactAppend
  have hlive :
      ((bodies.enum.filter (fun ib => decide (ib.1 ∉ dead))).map (fun ib => ib.2)).length ≤
        PHYSICS.MAX_BODIES := by
    calc ((bodies.enum.filter (fun ib => decide (ib.1 ∉ dead))).map (fun ib => ib.2)).length
        = (bodies.enum.filter (fun ib => decide (ib.1 ∉ dead))).length := by
          rw [List.length_map]
      _ ≤ bodies.enum.length := List.length_filter_le _ _
      _ = bodies.length := List.enum_length
      _ ≤ PHYSICS.MAX_BODIES := h
  generalize (bodies.enum.filter (fun ib => decide (ib.1 ∉ dead))).map
    (fun ib => ib.2) = live at hlive
  induction generated generalizing live with
  | nil => simpa using hlive
  | cons g gs ih =>
      simp only [List.foldl_cons]
      by_cases hlt : live.length < PHYSICS.MAX_BODIES
      · rw [if_pos hlt]
        exact ih _ (by simp; omega)
      · rw [if_neg hlt]
        exact ih _ hlive

theorem applyGravity_length (bodies : List Body) (t : TreeState (ℕ × Body)) :
    (applyGravity bodies t).1.length = bodies.length := by
  simp [applyGravity, List.enum_length]

/-! ## Claim C3: the live body count never exceeds MAX_BODIES -/

/-- **C3.** If the live body count is at most MAX_BODIES before an
operation, it is still at most MAX_BODIES afterwards, for every operation
of the World: addBody refuses additions at capacity, removeBody and clear
only shrink the list, and a step appends collision-generated bodies only
up to the cap, silently dropping the excess. -/
theorem c3_cap_preserved (w : WorldState) (b : Body) (dt : ℝ) (rand : ℕ → ℕ → ℝ)
    (hcap : w.bodies.length ≤ PHYSICS.MAX_BODIES) :
    (w.addBody b).2.bodies.length ≤ PHYSICS.MAX_BODIES ∧
    (w.removeBody b).2.bodies.length ≤ PHYSICS.MAX_BODIES ∧
    w.clear.bodies.length ≤ PHYSICS.MAX_BODIES ∧
    (w.step dt rand).bodies.length ≤ PHYSICS.MAX_BODIES := by
  refine ⟨?_, ?_, ?_, ?_⟩
  · unfold WorldState.addBody
    by_cases h : w.bodies.length ≥ PHYSICS.MAX_BODIES
    · rw [if_pos h]; exact hcap
    · rw [if_neg h]; simp; omega
  · unfold WorldState.removeBody
    cases h : WorldState.indexOfAux b w.bodies 0 with
    | none => exact hcap
    | some i =>
        simp only
        calc (w.bodies.eraseIdx i).length ≤ w.bodies.length := by
              rw [List.length_eraseIdx]; split <;> omega
          _ ≤ PHYSICS.MAX_BODIES := hcap
  · simp [WorldState.clear]
  · unfold WorldState.step
    by_cases h1 : dt ≤ 0
    · rw [if_pos h1]; exact hcap
    rw [if_neg h1]
    by_cases h2 : w.bodies = []
    · rw [if_pos h2]; exact hcap
    rw [if_neg h2]
    simp only
    split
    · apply compactAppend_length_le
      rw [List.length_map, applyGravity_length, List.length_map]
      exact hcap
    · rw [List.length_map, applyGravity_length, List.length_map]
      exact hcap

/-- Witness for C3 at a concrete world below the cap. -/
theorem c3_cap_preserved_witness :
    WorldState.init.bodies.length ≤ PHYSICS.MAX_BODIES ∧
    (WorldState.init.addBody default).2.bodies.length ≤ PHYSICS.MAX_BODIES ∧
    (WorldState.init.removeBody default).2.bodies.length ≤ PHYSICS.MAX_BODIES ∧
    WorldState.init.clear.bodies.length ≤ PHYSICS.MAX_BODIES ∧
    (WorldState.init.step 1 (fun _ _ => 0)).bodies.length ≤ PHYSICS.MAX_BODIES := by
  have h : WorldState.init.bodies.length ≤ PHYSICS.MAX_BODIES := by
    simp [WorldState.init, PHYSICS.MAX_BODIES]
  exact ⟨h, c3_cap_preserved WorldState.init default 1 (fun _ _ => 0) h⟩

/-! ## Claim C8: addBody / removeBody return values -/

/-- **C8.** Under the cap invariant, addBody returns false and leaves the
body list unchanged exactly when the list already holds MAX_BODIES bodies,
and otherwise appends the body and returns true; removeBody returns false
and leaves the list unchanged exactly when the body is not present, and
otherwise removes the first occurrence of that body and returns true. -/
theorem c8_add_remove (w : WorldState) (b : Body)
    (hcap : w.bodies.length ≤ PHYSICS.MAX_BODIES) :
    (((w.addBody b).1 = false ↔ w.bodies.length = PHYSICS.MAX_BODIES) ∧
      ((w.addBody b).1 = false → (w.addBody b).2 = w) ∧
      ((w.addBody b).1 = true → (w.addBody b).2.bodies = w.bodies ++ [b])) ∧
    (((w.removeBody b).1 = false ↔ b ∉ w.bodies) ∧
      ((w.removeBody b).1 = false → (w.removeBody b).2 = w) ∧
      ((w.removeBody b).1 = true →
        ∃ l1 l2, w.bodies = l1 ++ b :: l2 ∧ b ∉ l1 ∧
          (w.removeBody b).2.bodies = l1 ++ l2)) := by
  constructor
  · unfold WorldState.addBody
    by_cases h : w.bodies.length ≥ PHYSICS.MAX_BODIES
    · rw [if_pos h]
      refine ⟨by simp; omega, fun _ => rfl, by simp⟩
    · rw [if_neg h]
      refine ⟨by simp; omega, by simp, fun _ => rfl⟩
  · unfold WorldState.removeBody
    cases h : WorldState.indexOfAux b w.bodies 0 with
    | none =>
        refine ⟨by simpa using (WorldState.indexOfAux_none_iff b w.bodies 0).mp h,
          fun _ => rfl, by simp⟩
    | some i =>
        obtain ⟨l1, l2, hsplit, hnot, hlen, herase⟩ := WorldState.indexOfAux_some b w.bodies 0 i h
        refine ⟨?_, by simp, ?_⟩
        · simp only [show (true = false) ↔ False by simp, false_iff, not_not]
          rw [hsplit]; exact List.mem_append_right _ (List.mem_cons_self _ _)
        · intro _
          refine ⟨l1, l2, hsplit, hnot, ?_⟩
          simpa using herase

/-- Witness for C8 on a concrete world holding one body. -/
theorem c8_add_remove_witness :
    (WorldState.init.addBody default).2.bodies.length ≤ PHYSICS.MAX_BODIES ∧
    ((((WorldState.init.addBody default).2.addBody default).1 = false ↔
        (WorldState.init.addBody default).2.bodies.length = PHYSICS.MAX_BODIES) ∧
      (((WorldState.init.addBody default).2.addBody default).1 = false →
        ((WorldState.init.addBody default).2.addBody default).2 =
          (WorldState.init.addBody default).2) ∧
      (((WorldState.init.addBody default).2.addBody default).1 = true →
        ((WorldState.init.addBody default).2.addBody default).2.bodies =
          (WorldState.init.addBody default).2.bodies ++ [default])) ∧
    ((((WorldState.init.addBody default).2.removeBody default).1 = false ↔
        default ∉ (WorldState.init.addBody default).2.bodies) ∧
      (((WorldState.init.addBody default).2.removeBody default).1 = false →
        ((WorldState.init.addBody default).2.removeBody default).2 =
          (WorldState.init.addBody default).2) ∧
      (((WorldState.init.addBody default).2.removeBody default).1 = true →
        ∃ l1 l2, (WorldState.init.addBody default).2.bodies = l1 ++ default :: l2 ∧
          default ∉ l1 ∧
          ((WorldState.init.addBody default).2.removeBody default).2.bodies =
            l1 ++ l2)) := by
  have h : (WorldState.init.addBody default).2.bodies.length ≤ PHYSICS.MAX_BODIES := by
    simp [WorldState.init, WorldState.addBody, PHYSICS.MAX_BODIES]
  exact ⟨h, c8_add_remove (WorldState.init.addBody default).2 default h⟩

/-! ## Claim C7: computeOutcome has no side effects -/

/-- **C7.** computeOutcome leaves both input bodies unchanged — every
field of b1 and b2 (position, velocity, acceleration, mass, radius, debris
flag, cooldown, trail, shape) reads back identically after the call — and
it does not modify the world-level body store; its only products are the
newly constructed bodies of the returned outcome of the pure function. -/
theorem c7_no_side_effects (store : List Body) (i j : ℕ) (G soft time : ℝ)
    (rand : ℕ → ℝ) :
    (computeOutcomeST store i j G soft time rand).1 = store ∧
    (computeOutcomeST store i j G soft time rand).1.getD i default = store.getD i default ∧
    (computeOutcomeST store i j G soft time rand).1.getD j default = store.getD j default ∧
    (computeOutcomeST store i j G soft time rand).2 =
      computeOutcome G soft time (store.getD i default) (store.getD j default) rand :=
  ⟨rfl, rfl, rfl, rfl⟩

/-! ## Claim C1: merge classification conserves mass and momentum -/

/-- **C1.** For bodies with positive masses, whenever computeOutcome
classifies the collision as a merge — alpha below the merge threshold, or
mass ratio above 1000:1 (merging regardless of alpha) — it returns exactly
one body whose mass is the exact sum of the input masses and whose
velocity and position are the mass-weighted averages of the inputs'. -/
theorem c1_merge_conserves (G soft time : ℝ) (b1 b2 : Body) (rand : ℕ → ℝ)
    (h1 : 0 < b1.mass) (h2 : 0 < b2.mass)
    (hmerge : 1000 < jsRatio b1 b2 ∨ collisionAlpha G soft b1 b2 < PHYSICS.ALPHA_MERGE) :
    computeOutcome G soft time b1 b2 rand = [createMergedBody b1 b2] ∧
    (createMergedBody b1 b2).mass = b1.mass + b2.mass ∧
    (createMergedBody b1 b2).velocity =
      ⟨(b1.velocity.x * b1.mass + b2.velocity.x * b2.mass) / (b1.mass + b2.mass),
       (b1.velocity.y * b1.mass + b2.velocity.y * b2.mass) / (b1.mass + b2.mass)⟩ ∧
    (createMergedBody b1 b2).position =
      ⟨(b1.position.x * b1.mass + b2.position.x * b2.mass) / (b1.mass + b2.mass),
       (b1.position.y * b1.mass + b2.position.y * b2.mass) / (b1.mass + b2.mass)⟩ := by
  have hm : ¬ (b1.mass + b2.mass ≤ 0) := by push_neg; linarith
  have hout : computeOutcome G soft time b1 b2 rand = [createMergedBody b1 b2] := by
    unfold computeOutcome
    rw [if_neg hm]
    by_cases hr : jsRatio b1 b2 > 1000
    · rw [if_pos hr]
    · rw [if_neg hr]
      have ha : collisionAlpha G soft b1 b2 < PHYSICS.ALPHA_MERGE := by
        rcases hmerge with hr' | ha
        · exact absurd hr' hr
        · exact ha
      rw [if_pos ha]
  exact ⟨hout, rfl, rfl, rfl⟩

/-- Concrete input for the C1 witness: a 2000:1 mass ratio pair. -/
def c1Big : Body := { position := ⟨0, 0⟩, velocity := ⟨3, 0⟩, mass := 2000, radius := 10 }

/-- Concrete input for the C1 witness. -/
def c1Small : Body := { position := ⟨5, 0⟩, velocity := ⟨0, 4⟩, mass := 1, radius := 1 }

/-- Witness for C1 at the concrete 2000:1 pair. -/
theorem c1_merge_conserves_witness :
    (0 < c1Big.mass ∧ 0 < c1Small.mass ∧ 1000 < jsRatio c1Big c1Small) ∧
    (computeOutcome 60 8 0 c1Big c1Small (fun _ => 1/2) =
        [createMergedBody c1Big c1Small] ∧
      (createMergedBody c1Big c1Small).mass = c1Big.mass + c1Small.mass ∧
      (createMergedBody c1Big c1Small).velocity =
        ⟨(c1Big.velocity.x * c1Big.mass + c1Small.velocity.x * c1Small.mass) /
            (c1Big.mass + c1Small.mass),
         (c1Big.velocity.y * c1Big.mass + c1Small.velocity.y * c1Small.mass) /
            (c1Big.mass + c1Small.mass)⟩ ∧
      (createMergedBody c1Big c1Small).position =
        ⟨(c1Big.position.x * c1Big.mass + c1Small.position.x * c1Small.mass) /
            (c1Big.mass + c1Small.mass),
         (c1Big.position.y * c1Big.mass + c1Small.position.y * c1Small.mass) /
            (c1Big.mass + c1Small.mass)⟩) := by
  have hb : 0 < c1Big.mass := by norm_num [c1Big]
  have hs : 0 < c1Small.mass := by norm_num [c1Small]
  have hr : 1000 < jsRatio c1Big c1Small := by norm_num [jsRatio, c1Big, c1Small]
  exact ⟨⟨hb, hs, hr⟩,
    c1_merge_conserves 60 8 0 c1Big c1Small (fun _ => 1/2) hb hs (Or.inl hr)⟩

/-! ## Claim C5: the 2D density law is preserved by every produced body -/

theorem density_pos : (0:ℝ) < PHYSICS.DENSITY_2D := by
  unfold PHYSICS.DENSITY_2D
  positivity

theorem massFromRadius_radiusFromMass {m : ℝ} (h : 0 ≤ m) :
    massFromRadius (radiusFromMass m) = m := by
  unfold massFromRadius radiusFromMass
  have hx : 0 ≤ m / PHYSICS.DENSITY_2D := div_nonneg h (le_of_lt density_pos)
  rw [mul_assoc, Real.mul_self_sqrt hx, mul_comm,
    div_mul_cancel₀ _ (ne_of_gt density_pos)]

theorem createMergedBody_density (b1 b2 : Body)
    (hd1 : b1.mass = massFromRadius b1.radius)
    (hd2 : b2.mass = massFromRadius b2.radius) :
    (createMergedBody b1 b2).mass = massFromRadius (createMergedBody b1 b2).radius := by
  show b1.mass + b2.mass =
    massFromRadius (Real.sqrt (b1.radius * b1.radius + b2.radius * b2.radius))
  unfold massFromRadius at *
  have hs : 0 ≤ b1.radius * b1.radius + b2.radius * b2.radius := by
    have := mul_self_nonneg b1.radius
    have := mul_self_nonneg b2.radius
    linarith
  rw [mul_assoc, Real.mul_self_sqrt hs, hd1, hd2]
  ring

theorem bs_mergedMass_ge (big small : Body) (alpha : ℝ) (hsmall : 0 ≤ small.mass) :
    big.mass ≤ BS.mergedMass big small alpha := by
  unfold BS.mergedMass BS.fragmentMassTotal BS.destructionFactor
  have hle : max 0.8 (min 1 (0.2 + alpha * 0.5)) ≤ 1 := by
    apply max_le
    · norm_num
    · exact min_le_left _ _
  nlinarith [hle, hsmall]

theorem bs_core_density (time : ℝ) (big small : Body) (alpha : ℝ) (vcm : Vec2)
    (hdBig : big.mass = massFromRadius big.radius) (hbig : 0 < big.mass)
    (hsmall : 0 ≤ small.mass) :
    (BS.core time big small alpha vcm).mass =
      massFromRadius ((BS.core time big small alpha vcm).radius) := by
  show BS.mergedMass big small alpha = massFromRadius (BS.mergedRadius big small alpha)
  unfold BS.mergedRadius massFromRadius
  have hM : 0 ≤ BS.mergedMass big small alpha / big.mass :=
    div_nonneg (le_trans (le_of_lt hbig) (bs_mergedMass_ge big small alpha hsmall))
      (le_of_lt hbig)
  have hss := Real.mul_self_sqrt hM
  unfold massFromRadius at hdBig
  calc BS.mergedMass big small alpha
      = big.mass * (BS.mergedMass big small alpha / big.mass) := by
        field_simp
    _ = (PHYSICS.DENSITY_2D * big.radius * big.radius) *
          (Real.sqrt (BS.mergedMass big small alpha / big.mass) *
            Real.sqrt (BS.mergedMass big small alpha / big.mass)) := by
        rw [hss, ← hdBig]
    _ = PHYSICS.DENSITY_2D *
          (big.radius * Real.sqrt (BS.mergedMass big small alpha / big.mass)) *
          (big.radius * Real.sqrt (BS.mergedMass big small alpha / big.mass)) := by
        ring

theorem bs_fragCount_ge6 (alpha : ℝ) : (6:ℤ) ≤ BS.fragCount alpha := by
  unfold BS.fragCount PHYSICS.MAX_FRAGMENTS
  exact le_min (by norm_num) (le_max_left _ _)

theorem bs_singleFragMass_nonneg (small : Body) (alpha : ℝ) (h : 0 ≤ small.mass) :
    0 ≤ BS.singleFragMass small alpha := by
  unfold BS.singleFragMass BS.fragmentMassTotal
  apply div_nonneg
  · have : (0:ℝ) ≤ max 0.8 (BS.destructionFactor alpha) :=
      le_trans (by norm_num) (le_max_left _ _)
    positivity
  · have h6 := bs_fragCount_ge6 alpha
    have h6' : (6:ℝ) ≤ ((BS.fragCount alpha : ℤ) : ℝ) := by exact_mod_cast h6
    linarith

theorem bs_mkFrag_density (time : ℝ) (big small : Body) (alpha : ℝ)
    (normal vcm : Vec2) (rand : ℕ → ℝ) (k : ℕ) (hsmall : 0 ≤ small.mass) :
    (BS.mkFrag time big small alpha normal vcm rand k).mass =
      massFromRadius ((BS.mkFrag time big small alpha normal vcm rand k).radius) := by
  show BS.singleFragMass small alpha =
    massFromRadius (radiusFromMass (BS.singleFragMass small alpha))
  rw [massFromRadius_radiusFromMass (bs_singleFragMass_nonneg small alpha hsmall)]

theorem collisionBigSmall_density (time : ℝ) (big small : Body) (alpha : ℝ)
    (normal vcm : Vec2) (rand : ℕ → ℝ)
    (hdBig : big.mass = massFromRadius big.radius) (hbig : 0 < big.mass)
    (hsmall : 0 ≤ small.mass) :
    ∀ b ∈ collisionBigSmall time big small alpha normal vcm rand,
      b.mass = massFromRadius b.radius := by
  intro b hb
  unfold collisionBigSmall at hb
  split_ifs at hb
  · rw [List.mem_singleton] at hb
    subst hb
    exact bs_core_density time big small alpha vcm hdBig hbig hsmall
  · rw [List.mem_cons] at hb
    rcases hb with hb | hb
    · subst hb
      exact bs_core_density time big small alpha vcm hdBig hbig hsmall
    · obtain ⟨k, _, hk⟩ := List.mem_map.mp hb
      subst hk
      exact bs_mkFrag_density time big small alpha normal vcm rand k hsmall
  · rw [List.mem_singleton] at hb
    subst hb
    exact bs_core_density time big small alpha vcm hdBig hbig hsmall

theorem fb_baseLoss_nonneg (alpha : ℝ) : 0 ≤ FB.baseLoss alpha := by
  unfold FB.baseLoss clamp
  exact le_trans (by norm_num) (le_max_left _ _)

theorem fb_damage1_nonneg (b1 b2 : Body) (h1 : 0 < b1.mass) (h2 : 0 < b2.mass) :
    0 ≤ FB.damage1 b1 b2 := by
  unfold FB.damage1 jsOr pow15
  rw [if_neg (ne_of_gt h1)]
  have hs : 0 ≤ Real.sqrt b1.mass := Real.sqrt_nonneg _
  positivity

theorem fb_damage2_nonneg (b1 b2 : Body) (h1 : 0 < b1.mass) (h2 : 0 < b2.mass) :
    0 ≤ FB.damage2 b1 b2 := by
  unfold FB.damage2 jsOr pow15
  rw [if_neg (ne_of_gt h2)]
  have hs : 0 ≤ Real.sqrt b2.mass := Real.sqrt_nonneg _
  positivity

theorem fb_damageSum_nonneg (b1 b2 : Body) (h1 : 0 < b1.mass) (h2 : 0 < b2.mass) :
    0 ≤ FB.damageSum b1 b2 := by
  unfold FB.damageSum jsOr
  split
  · norm_num
  · have := fb_damage1_nonneg b1 b2 h1 h2
    have := fb_damage2_nonneg b1 b2 h1 h2
    linarith

theorem fb_lostMass1_bounds (b1 b2 : Body) (alpha : ℝ)
    (h1 : 0 < b1.mass) (h2 : 0 < b2.mass) :
    0 ≤ FB.lostMass1 b1 b2 alpha ∧ FB.lostMass1 b1 b2 alpha ≤ 0.9 * b1.mass := by
  constructor
  · unfold FB.lostMass1
    apply le_min
    · have hb := fb_baseLoss_nonneg alpha
      have hd := fb_damage1_nonneg b1 b2 h1 h2
      have hs := fb_damageSum_nonneg b1 b2 h1 h2
      have hq : 0 ≤ FB.damage1 b1 b2 / FB.damageSum b1 b2 := div_nonneg hd hs
      positivity
    · positivity
  · exact min_le_right _ _

theorem fb_lostMass2_bounds (b1 b2 : Body) (alpha : ℝ)
    (h1 : 0 < b1.mass) (h2 : 0 < b2.mass) :
    0 ≤ FB.lostMass2 b1 b2 alpha ∧ FB.lostMass2 b1 b2 alpha ≤ 0.9 * b2.mass := by
  constructor
  · unfold FB.lostMass2
    apply le_min
    · have hb := fb_baseLoss_nonneg alpha
      have hd := fb_damage2_nonneg b1 b2 h1 h2
      have hs := fb_damageSum_nonneg b1 b2 h1 h2
      have hq : 0 ≤ FB.damage2 b1 b2 / FB.damageSum b1 b2 := div_nonneg hd hs
      positivity
    · positivity
  · exact min_le_right _ _

theorem fb_coreMass1_nonneg (b1 b2 : Body) (alpha : ℝ)
    (h1 : 0 < b1.mass) (h2 : 0 < b2.mass) : 0 ≤ FB.coreMass1 b1 b2 alpha := by
  unfold FB.coreMass1
  have := (fb_lostMass1_bounds b1 b2 alpha h1 h2).2
  linarith

theorem fb_coreMass2_nonneg (b1 b2 : Body) (alpha : ℝ)
    (h1 : 0 < b1.mass) (h2 : 0 < b2.mass) : 0 ≤ FB.coreMass2 b1 b2 alpha := by
  unfold FB.coreMass2
  have := (fb_lostMass2_bounds b1 b2 alpha h1 h2).2
  linarith

theorem fb_fragCount_ge6 (b1 b2 : Body) (alpha : ℝ) :
    (6:ℤ) ≤ FB.fragCount b1 b2 alpha := by
  unfold FB.fragCount PHYSICS.MAX_FRAGMENTS
  exact le_min (by norm_num) (le_max_left _ _)

theorem fb_singleFragMass_nonneg (b1 b2 : Body) (alpha : ℝ)
    (h1 : 0 < b1.mass) (h2 : 0 < b2.mass) :
    0 ≤ FB.singleFragMass b1 b2 alpha := by
  unfold FB.singleFragMass FB.fragmentMassTotal
  apply div_nonneg
  · have := (fb_lostMass1_bounds b1 b2 alpha h1 h2).1
    have := (fb_lostMass2_bounds b1 b2 alpha h1 h2).1
    linarith
  · have h6 := fb_fragCount_ge6 b1 b2 alpha
    have h6' : (6:ℝ) ≤ ((FB.fragCount b1 b2 alpha : ℤ) : ℝ) := by exact_mod_cast h6
    linarith

theorem fragmentBoth_density (G time : ℝ) (b1 b2 : Body) (alpha : ℝ)
    (normal vcm : Vec2) (rand : ℕ → ℝ)
    (h1 : 0 < b1.mass) (h2 : 0 < b2.mass) :
    ∀ b ∈ fragmentBoth G time b1 b2 alpha normal vcm rand,
      b.mass = massFromRadius b.radius := by
  have hcores : ∀ b ∈ fbCores time b1 b2 alpha vcm, b.mass = massFromRadius b.radius := by
    intro b hb
    unfold fbCores at hb
    rw [List.mem_append] at hb
    rcases hb with hb | hb
    · split_ifs at hb with hc
      · rw [List.mem_singleton] at hb
        subst hb
        show FB.coreMass1 b1 b2 alpha =
          massFromRadius (radiusFromMass (FB.coreMass1 b1 b2 alpha))
        rw [massFromRadius_radiusFromMass (fb_coreMass1_nonneg b1 b2 alpha h1 h2)]
      · simp at hb
    · split_ifs at hb with hc
      · rw [List.mem_singleton] at hb
        subst hb
        show FB.coreMass2 b1 b2 alpha =
          massFromRadius (radiusFromMass (FB.coreMass2 b1 b2 alpha))
        rw [massFromRadius_radiusFromMass (fb_coreMass2_nonneg b1 b2 alpha h1 h2)]
      · simp at hb
  intro b hb
  unfold fragmentBoth at hb
  split_ifs at hb
  · simp at hb
  · exact hcores b hb
  · rw [List.mem_append] at hb
    rcases hb with hb | hb
    · exact hcores b hb
    · unfold fbFrags at hb
      obtain ⟨k, _, hk⟩ := List.mem_map.mp hb
      subst hk
      show FB.singleFragMass b1 b2 alpha =
        massFromRadius (radiusFromMass (FB.singleFragMass b1 b2 alpha))
      rw [massFromRadius_radiusFromMass (fb_singleFragMass_nonneg b1 b2 alpha h1 h2)]

/-- **C5.** If both input bodies satisfy the fixed 2D density law
mass = DENSITY_2D · radius², then every body returned by computeOutcome —
merge result, big-small core, fragmentation cores and all debris
fragments — satisfies the law as well (exactly, over the reals). -/
theorem c5_density_preserved (G soft time : ℝ) (b1 b2 : Body) (rand : ℕ → ℝ)
    (h1 : 0 < b1.mass) (h2 : 0 < b2.mass)
    (hd1 : b1.mass = massFromRadius b1.radius)
    (hd2 : b2.mass = massFromRadius b2.radius) :
    ∀ b ∈ computeOutcome G soft time b1 b2 rand,
      b.mass = massFromRadius b.radius := by
  intro b hb
  unfold computeOutcome at hb
  have hm : ¬ (b1.mass + b2.mass ≤ 0) := by push_neg; linarith
  rw [if_neg hm] at hb
  split_ifs at hb with hr ha hbig hge
  · rw [List.mem_singleton] at hb
    subst hb
    exact createMergedBody_density b1 b2 hd1 hd2
  · rw [List.mem_singleton] at hb
    subst hb
    exact createMergedBody_density b1 b2 hd1 hd2
  · exact collisionBigSmall_density _ b1 b2 _ _ _ _ hd1 h1 (le_of_lt h2) b hb
  · exact collisionBigSmall_density _ b2 b1 _ _ _ _ hd2 h2 (le_of_lt h1) b hb
  · exact fragmentBoth_density _ _ b1 b2 _ _ _ _ h1 h2 b hb

/-- Concrete input for the C5 witness: unit-mass bodies satisfying the
density law with radius √(2/π). -/
def c5Body1 : Body :=
  { position := ⟨0, 0⟩, velocity := ⟨0, 0⟩, mass := 1, radius := Real.sqrt (2 / Real.pi) }

/-- Concrete input for the C5 witness. -/
def c5Body2 : Body :=
  { position := ⟨1, 1⟩, velocity := ⟨2, 0⟩, mass := 1, radius := Real.sqrt (2 / Real.pi) }

theorem c5Body_law : (1:ℝ) = massFromRadius (Real.sqrt (2 / Real.pi)) := by
  unfold massFromRadius PHYSICS.DENSITY_2D
  have h : (0:ℝ) ≤ 2 / Real.pi := by positivity
  rw [mul_assoc, Real.mul_self_sqrt h]
  field_simp
  ring

/-- Witness for C5 at a concrete law-abiding pair. -/
theorem c5_density_preserved_witness :
    (0 < c5Body1.mass ∧ 0 < c5Body2.mass ∧
      c5Body1.mass = massFromRadius c5Body1.radius ∧
      c5Body2.mass = massFromRadius c5Body2.radius) ∧
    ∀ b ∈ computeOutcome 60 8 0 c5Body1 c5Body2 (fun _ => 1/2),
      b.mass = massFromRadius b.radius := by
  have h1 : 0 < c5Body1.mass := by norm_num [c5Body1]
  have h2 : 0 < c5Body2.mass := by norm_num [c5Body2]
  have hd1 : c5Body1.mass = massFromRadius c5Body1.radius := c5Body_law
  have hd2 : c5Body2.mass = massFromRadius c5Body2.radius := c5Body_law
  exact ⟨⟨h1, h2, hd1, hd2⟩,
    c5_density_preserved 60 8 0 c5Body1 c5Body2 (fun _ => 1/2) h1 h2 hd1 hd2⟩

/-! ## Claim C2: behavior above the vaporize threshold -/

theorem sqrt_eval {a b : ℝ} (hb : 0 ≤ b) (h : b * b = a) : Real.sqrt a = b := by
  rw [← h]
  exact Real.sqrt_mul_self hb

/-- Concrete 5:1 pair hitting the big–small branch with alpha = 150. -/
def c2b1 : Body := { position := ⟨0, 0⟩, velocity := ⟨3000, 0⟩, mass := 25, radius := 1 }

/-- Concrete 5:1 pair, the small body. -/
def c2b2 : Body := { position := ⟨1, 0⟩, velocity := ⟨0, 0⟩, mass := 5, radius := 1/2 }

theorem c2_escVel_eval : escVelOf 60 8 c2b1 c2b2 = 20 := by
  unfold escVelOf computeEscapeVelocity c2b1 c2b2
  simp only
  rw [if_neg (by norm_num [max_le_iff] : ¬ (max (1:ℝ) (1/2) + 8 ≤ 0))]
  have hmax : max (1:ℝ) (1/2) = 1 := max_eq_left (by norm_num)
  rw [hmax]
  rw [show (2 * 60 * ((25:ℝ) + 5)) / (1 + 8) = 400 by norm_num]
  exact sqrt_eval (by norm_num) (by norm_num)

theorem c2_alpha_eval : collisionAlpha 60 8 c2b1 c2b2 = 150 := by
  have hrel : relSpeedOf c2b1 c2b2 = 3000 := by
    unfold relSpeedOf hypot c2b1 c2b2
    simp only
    rw [show ((3000:ℝ) - 0) * (3000 - 0) + (0 - 0) * (0 - 0) = 9000000 by norm_num]
    exact sqrt_eval (by norm_num) (by norm_num)
  unfold collisionAlpha
  rw [c2_escVel_eval, hrel]
  rw [if_pos (by norm_num)]
  norm_num

/-- **C2 counterexample.** At a concrete pair with positive combined mass
and alpha = 150 above the vaporize threshold, computeOutcome does not
return the empty list: the big–small branch keeps the reduced core. -/
theorem c2_counterexample :
    collisionAlpha 60 8 c2b1 c2b2 > PHYSICS.VAPORIZE_THRESHOLD ∧
    0 < c2b1.mass + c2b2.mass ∧
    computeOutcome 60 8 0 c2b1 c2b2 (fun _ => 1/2) ≠ [] := by
  refine ⟨by rw [c2_alpha_eval]; norm_num [PHYSICS.VAPORIZE_THRESHOLD], by norm_num [c2b1, c2b2], ?_⟩
  unfold computeOutcome
  rw [if_neg (by norm_num [c2b1, c2b2] : ¬ (c2b1.mass + c2b2.mass ≤ 0))]
  rw [if_neg (by norm_num [jsRatio, c2b1, c2b2] : ¬ (jsRatio c2b1 c2b2 > 1000))]
  rw [if_neg (by rw [c2_alpha_eval]; norm_num [PHYSICS.ALPHA_MERGE] :
    ¬ (collisionAlpha 60 8 c2b1 c2b2 < PHYSICS.ALPHA_MERGE))]
  rw [if_pos (by norm_num [massRatioOf, c2b1, c2b2, PHYSICS.MASS_RATIO_BIG] :
    massRatioOf c2b1 c2b2 > PHYSICS.MASS_RATIO_BIG)]
  rw [if_pos (by norm_num [c2b1, c2b2] : c2b1.mass ≥ c2b2.mass)]
  unfold collisionBigSmall
  rw [if_pos (Or.inl (by rw [c2_alpha_eval]; norm_num [PHYSICS.VAPORIZE_THRESHOLD]))]
  simp

/-- **C2 amended.** If alpha exceeds the vaporize threshold, no debris
fragments are created, but only the mutual-fragmentation branch returns
the empty list: the big–small branch returns exactly the single reduced
core, and the extreme-mass-ratio branch still returns the merged body. -/
theorem c2_amended (G soft time : ℝ) (b1 b2 : Body) (rand : ℕ → ℝ)
    (h1 : 0 < b1.mass) (h2 : 0 < b2.mass)
    (hvap : collisionAlpha G soft b1 b2 > PHYSICS.VAPORIZE_THRESHOLD) :
    (jsRatio b1 b2 ≤ 1000 → massRatioOf b1 b2 ≤ PHYSICS.MASS_RATIO_BIG →
      computeOutcome G soft time b1 b2 rand = []) ∧
    (jsRatio b1 b2 ≤ 1000 → massRatioOf b1 b2 > PHYSICS.MASS_RATIO_BIG →
      computeOutcome G soft time b1 b2 rand =
        [BS.core time (if b1.mass ≥ b2.mass then b1 else b2)
          (if b1.mass ≥ b2.mass then b2 else b1) (collisionAlpha G soft b1 b2)
          (vcmOf b1 b2)]) ∧
    (jsRatio b1 b2 > 1000 →
      computeOutcome G soft time b1 b2 rand = [createMergedBody b1 b2]) := by
  have hm : ¬ (b1.mass + b2.mass ≤ 0) := by push_neg; linarith
  have ha : ¬ (collisionAlpha G soft b1 b2 < PHYSICS.ALPHA_MERGE) := by
    unfold PHYSICS.ALPHA_MERGE
    unfold PHYSICS.VAPORIZE_THRESHOLD at hvap
    push_neg
    linarith
  refine ⟨?_, ?_, ?_⟩
  · intro hr hmr
    unfold computeOutcome
    rw [if_neg hm, if_neg (not_lt.mpr hr), if_neg ha, if_neg (not_lt.mpr hmr)]
    unfold fragmentBoth
    rw [if_pos hvap]
  · intro hr hmr
    unfold computeOutcome
    rw [if_neg hm, if_neg (not_lt.mpr hr), if_neg ha, if_pos hmr]
    unfold collisionBigSmall
    rw [if_pos (Or.inl hvap)]
  · intro hr
    unfold computeOutcome
    rw [if_neg hm, if_pos hr]

/-- Witness for the amended C2 at the concrete 5:1 pair. -/
theorem c2_amended_witness :
    (0 < c2b1.mass ∧ 0 < c2b2.mass ∧
      collisionAlpha 60 8 c2b1 c2b2 > PHYSICS.VAPORIZE_THRESHOLD) ∧
    computeOutcome 60 8 0 c2b1 c2b2 (fun _ => 1/2) =
      [BS.core 0 (if c2b1.mass ≥ c2b2.mass then c2b1 else c2b2)
        (if c2b1.mass ≥ c2b2.mass then c2b2 else c2b1)
        (collisionAlpha 60 8 c2b1 c2b2) (vcmOf c2b1 c2b2)] := by
  have h1 : 0 < c2b1.mass := by norm_num [c2b1]
  have h2 : 0 < c2b2.mass := by norm_num [c2b2]
  have hvap : collisionAlpha 60 8 c2b1 c2b2 > PHYSICS.VAPORIZE_THRESHOLD := by
    rw [c2_alpha_eval]; norm_num [PHYSICS.VAPORIZE_THRESHOLD]
  refine ⟨⟨h1, h2, hvap⟩, ?_⟩
  exact (c2_amended 60 8 0 c2b1 c2b2 (fun _ => 1/2) h1 h2 hvap).2.1
    (by norm_num [jsRatio, c2b1, c2b2])
    (by norm_num [massRatioOf, c2b1, c2b2, PHYSICS.MASS_RATIO_BIG])

/-! ## Claim C4: Scenario B (masses 100, radius 8, 16 apart, closing at 200) -/

/-- When both cores survive and fragments are generated, _fragmentBoth
conserves mass exactly: the cores keep m − lost and the ring carries
lost1 + lost2, split equally over fragCount fragments. -/
theorem fragmentBoth_conserves (G time : ℝ) (b1 b2 : Body) (alpha : ℝ)
    (normal vcm : Vec2) (rand : ℕ → ℝ)
    (hvap : ¬ alpha > PHYSICS.VAPORIZE_THRESHOLD)
    (hc1 : FB.coreMass1 b1 b2 alpha / b1.mass > 0.2)
    (hc2 : FB.coreMass2 b1 b2 alpha / b2.mass > 0.2)
    (hf : ¬ FB.fragmentMassTotal b1 b2 alpha ≤ 0) :
    (fragmentBoth G time b1 b2 alpha normal vcm rand).length =
      2 + (FB.fragCount b1 b2 alpha).toNat ∧
    massTotal (fragmentBoth G time b1 b2 alpha normal vcm rand) =
      b1.mass + b2.mass := by
  have hn0 : (0:ℤ) ≤ FB.fragCount b1 b2 alpha :=
    le_trans (by norm_num) (fb_fragCount_ge6 b1 b2 alpha)
  have hcast : (((FB.fragCount b1 b2 alpha).toNat : ℕ) : ℝ) =
      ((FB.fragCount b1 b2 alpha : ℤ) : ℝ) := by
    rw [show (((FB.fragCount b1 b2 alpha).toNat : ℕ) : ℝ) =
      (((FB.fragCount b1 b2 alpha).toNat : ℤ) : ℝ) by push_cast; ring]
    rw [Int.toNat_of_nonneg hn0]
  have hne : ((FB.fragCount b1 b2 alpha : ℤ) : ℝ) ≠ 0 := by
    have h6 := fb_fragCount_ge6 b1 b2 alpha
    have h6' : (6:ℝ) ≤ ((FB.fragCount b1 b2 alpha : ℤ) : ℝ) := by exact_mod_cast h6
    linarith
  unfold fragmentBoth
  rw [if_neg hvap, if_neg hf]
  unfold fbCores
  rw [if_pos hc1, if_pos hc2]
  have hmassmap : (fbFrags G time b1 b2 alpha normal vcm rand).map Body.mass =
      List.replicate (FB.fragCount b1 b2 alpha).toNat (FB.singleFragMass b1 b2 alpha) := by
    unfold fbFrags
    rw [List.map_map]
    have hlen : ((List.range (FB.fragCount b1 b2 alpha).toNat).map
        (Body.mass ∘ FB.mkFrag G time b1 b2 alpha normal vcm rand)).length =
        (FB.fragCount b1 b2 alpha).toNat := by
      rw [List.length_map, List.length_range]
    have hrep := List.eq_replicate_of_mem
      (a := FB.singleFragMass b1 b2 alpha)
      (l := (List.range (FB.fragCount b1 b2 alpha).toNat).map
        (Body.mass ∘ FB.mkFrag G time b1 b2 alpha normal vcm rand))
      (by
        intro m hm
        obtain ⟨k, _, hk⟩ := List.mem_map.mp hm
        rw [← hk]
        rfl)
    rw [hlen] at hrep
    exact hrep
  constructor
  · simp only [List.length_append, List.length_singleton]
    unfold fbFrags
    rw [List.length_map, List.length_range]
  · unfold massTotal
    rw [List.map_append, List.map_append, List.sum_append, List.sum_append, hmassmap,
      List.sum_replicate]
    simp only [List.map_cons, List.map_nil, List.sum_cons, List.sum_nil]
    show FB.coreMass1 b1 b2 alpha + 0 + (FB.coreMass2 b1 b2 alpha + 0) +
      (FB.fragCount b1 b2 alpha).toNat • FB.singleFragMass b1 b2 alpha = b1.mass + b2.mass
    rw [nsmul_eq_mul, hcast]
    unfold FB.singleFragMass
    rw [mul_div_cancel₀ _ hne]
    unfold FB.coreMass1 FB.coreMass2 FB.fragmentMassTotal
    ring

/-- Scenario B body 1: mass 100, radius 8, at the origin, moving +x at 100. -/
def sB1 : Body := { position := ⟨0, 0⟩, velocity := ⟨100, 0⟩, mass := 100, radius := 8 }

/-- Scenario B body 2: mass 100, radius 8, 16 units away, moving −x at 100
(closing speed 200). -/
def sB2 : Body := { position := ⟨16, 0⟩, velocity := ⟨-100, 0⟩, mass := 100, radius := 8 }

theorem c4_escVel : escVelOf 60 8 sB1 sB2 = Real.sqrt 1500 := by
  unfold escVelOf computeEscapeVelocity sB1 sB2
  simp only [max_self]
  rw [if_neg (by norm_num : ¬ ((8:ℝ) + 8 ≤ 0))]
  norm_num

theorem c4_relSpeed : relSpeedOf sB1 sB2 = 200 := by
  unfold relSpeedOf hypot sB1 sB2
  simp only
  rw [show ((100:ℝ) - -100) * (100 - -100) + (0 - 0) * (0 - 0) = 40000 by norm_num]
  exact sqrt_eval (by norm_num) (by norm_num)

theorem c4_sqrt_lb : (38:ℝ) < Real.sqrt 1500 :=
  (Real.lt_sqrt (by norm_num)).mpr (by norm_num)

theorem c4_sqrt_ub : Real.sqrt 1500 < 39 :=
  (Real.sqrt_lt' (by norm_num)).mpr (by norm_num)

theorem c4_alpha : collisionAlpha 60 8 sB1 sB2 = 200 / Real.sqrt 1500 := by
  unfold collisionAlpha
  rw [c4_escVel, c4_relSpeed]
  rw [if_pos (by have := c4_sqrt_lb; norm_num; linarith)]

theorem c4_alpha_lb : 5 < collisionAlpha 60 8 sB1 sB2 := by
  rw [c4_alpha]
  have hub := c4_sqrt_ub
  have hlb := c4_sqrt_lb
  rw [lt_div_iff₀ (by linarith)]
  linarith

theorem c4_alpha_ub : collisionAlpha 60 8 sB1 sB2 < 100 := by
  rw [c4_alpha]
  have hlb := c4_sqrt_lb
  rw [div_lt_iff₀ (by linarith)]
  linarith

theorem c4_baseLoss : FB.baseLoss (collisionAlpha 60 8 sB1 sB2) = 0.9 := by
  unfold FB.baseLoss clamp
  have h5 := c4_alpha_lb
  have hge : (0.9:ℝ) ≤ 0.5 + 0.35 * (collisionAlpha 60 8 sB1 sB2 - 2.0) := by linarith
  rw [min_eq_left hge, max_eq_right (by norm_num)]

theorem c4_damage1 : FB.damage1 sB1 sB2 = 1/10 := by
  unfold FB.damage1 jsOr pow15 sB1 sB2
  simp only
  rw [if_neg (by norm_num : ¬ ((100:ℝ) = 0))]
  rw [sqrt_eval (by norm_num : (0:ℝ) ≤ 10) (by norm_num : (10:ℝ) * 10 = 100)]
  norm_num

theorem c4_damage2 : FB.damage2 sB1 sB2 = 1/10 := by
  unfold FB.damage2 jsOr pow15 sB1 sB2
  simp only
  rw [if_neg (by norm_num : ¬ ((100:ℝ) = 0))]
  rw [sqrt_eval (by norm_num : (0:ℝ) ≤ 10) (by norm_num : (10:ℝ) * 10 = 100)]
  norm_num

theorem c4_damageSum : FB.damageSum sB1 sB2 = 1/5 := by
  unfold FB.damageSum jsOr
  rw [c4_damage1, c4_damage2]
  norm_num

theorem c4_lost1 : FB.lostMass1 sB1 sB2 (collisionAlpha 60 8 sB1 sB2) = 45 := by
  unfold FB.lostMass1
  rw [c4_baseLoss, c4_damage1, c4_damageSum]
  show min (0.9 * (1 / 10 / (1 / 5)) * sB1.mass) (0.9 * sB1.mass) = 45
  norm_num [sB1]

theorem c4_lost2 : FB.lostMass2 sB1 sB2 (collisionAlpha 60 8 sB1 sB2) = 45 := by
  unfold FB.lostMass2
  rw [c4_baseLoss, c4_damage2, c4_damageSum]
  show min (0.9 * (1 / 10 / (1 / 5)) * sB2.mass) (0.9 * sB2.mass) = 45
  norm_num [sB2]

theorem c4_outcome_eq (rand : ℕ → ℝ) :
    computeOutcome 60 8 0 sB1 sB2 rand =
      fragmentBoth 60 0 sB1 sB2 (collisionAlpha 60 8 sB1 sB2)
        (normalOf sB1 sB2) (vcmOf sB1 sB2) rand := by
  unfold computeOutcome
  rw [if_neg (by norm_num [sB1, sB2] : ¬ (sB1.mass + sB2.mass ≤ 0))]
  rw [if_neg (by norm_num [jsRatio, sB1, sB2] : ¬ (jsRatio sB1 sB2 > 1000))]
  rw [if_neg (by have := c4_alpha_lb; unfold PHYSICS.ALPHA_MERGE; push_neg; linarith :
    ¬ (collisionAlpha 60 8 sB1 sB2 < PHYSICS.ALPHA_MERGE))]
  rw [if_neg (by norm_num [massRatioOf, sB1, sB2, PHYSICS.MASS_RATIO_BIG] :
    ¬ (massRatioOf sB1 sB2 > PHYSICS.MASS_RATIO_BIG))]

/-- Full evaluation of Scenario B: 2 cores plus the fragment ring, total
mass exactly 200. -/
theorem c4_eval (rand : ℕ → ℝ) :
    (computeOutcome 60 8 0 sB1 sB2 rand).length =
      2 + (FB.fragCount sB1 sB2 (collisionAlpha 60 8 sB1 sB2)).toNat ∧
    massTotal (computeOutcome 60 8 0 sB1 sB2 rand) = 200 := by
  have hvap : ¬ collisionAlpha 60 8 sB1 sB2 > PHYSICS.VAPORIZE_THRESHOLD := by
    have := c4_alpha_ub
    unfold PHYSICS.VAPORIZE_THRESHOLD
    push_neg
    linarith
  have hc1 : FB.coreMass1 sB1 sB2 (collisionAlpha 60 8 sB1 sB2) / sB1.mass > 0.2 := by
    unfold FB.coreMass1
    rw [c4_lost1]
    norm_num [sB1]
  have hc2 : FB.coreMass2 sB1 sB2 (collisionAlpha 60 8 sB1 sB2) / sB2.mass > 0.2 := by
    unfold FB.coreMass2
    rw [c4_lost2]
    norm_num [sB2]
  have hf : ¬ FB.fragmentMassTotal sB1 sB2 (collisionAlpha 60 8 sB1 sB2) ≤ 0 := by
    unfold FB.fragmentMassTotal
    rw [c4_lost1, c4_lost2]
    norm_num
  have h := fragmentBoth_conserves 60 0 sB1 sB2 (collisionAlpha 60 8 sB1 sB2)
    (normalOf sB1 sB2) (vcmOf sB1 sB2) rand hvap hc1 hc2 hf
  rw [c4_outcome_eq rand]
  refine ⟨h.1, ?_⟩
  rw [h.2]
  norm_num [sB1, sB2]

/-- **C4 counterexample.** At Scenario B (masses 100, radius 8, centers 16
apart, closing at 200, G = 60), computeOutcome does return at least 2
bodies and vaporization does not apply, but the total returned mass is
exactly 200 — not strictly less than 200 as claimed. -/
theorem c4_counterexample :
    ¬ ((2 ≤ (computeOutcome 60 8 0 sB1 sB2 (fun _ => 1/2)).length ∧
        massTotal (computeOutcome 60 8 0 sB1 sB2 (fun _ => 1/2)) < 200) ∨
      (computeOutcome 60 8 0 sB1 sB2 (fun _ => 1/2)).length = 0) := by
  have h := c4_eval (fun _ => 1/2)
  intro hcontra
  rcases hcontra with ⟨_, hlt⟩ | hzero
  · rw [h.2] at hlt
    exact absurd hlt (by norm_num)
  · rw [h.1] at hzero
    omega

/-- **C4 amended.** At Scenario B, computeOutcome returns at least 2
bodies (the two surviving cores plus debris), and the total returned mass
is exactly 200: the mass lost by the cores reappears in the debris ring,
so no mass is lost when both cores survive. -/
theorem c4_amended (rand : ℕ → ℝ) :
    2 ≤ (computeOutcome 60 8 0 sB1 sB2 rand).length ∧
    massTotal (computeOutcome 60 8 0 sB1 sB2 rand) = 200 := by
  have h := c4_eval rand
  exact ⟨by rw [h.1]; omega, h.2⟩

/-! ## Claim C10: occupied leaf at MAX_DEPTH absorbs mass, stores nothing -/

/-- **C10.** Inserting a body into an occupied quadtree leaf at MAX_DEPTH
folds the body's mass into the node's aggregate mass/center-of-mass but
stores the body in no node (the leaf keeps its old body and stays
childless, for every fuel and pool); consequently no query on the
resulting node ever returns that body, even for a query circle containing
its position — two sufficiently close bodies can be invisible to the
broad-phase search. -/
theorem c10_max_depth_insert {α : Type} [SpatialElem α] (x y size : ℝ) (d : ℕ)
    (m : ℝ) (com : Vec2) (b0 b : α)
    (hd : ¬ d < PHYSICS.MAX_DEPTH) (hne : b ≠ b0) :
    ∀ (fuel : ℕ) (pool : NodePool α),
      insertAux fuel (QNode.node x y size d m com (some b0) none) b pool =
        (QNode.node x y size d (m + SpatialElem.elemMass b)
          ⟨(com.x * m + (SpatialElem.pos b).x * SpatialElem.elemMass b) /
              (m + SpatialElem.elemMass b),
            (com.y * m + (SpatialElem.pos b).y * SpatialElem.elemMass b) /
              (m + SpatialElem.elemMass b)⟩ (some b0) none, pool) ∧
      ∀ (cx cy r : ℝ) (acc : List α),
        b ∈ queryNode cx cy r
          (insertAux fuel (QNode.node x y size d m com (some b0) none) b pool).1 acc →
        b ∈ acc := by
  intro fuel pool
  have habs : absorbMass (QNode.node x y size d m com (some b0) none) b =
      QNode.node x y size d (m + SpatialElem.elemMass b)
        ⟨(com.x * m + (SpatialElem.pos b).x * SpatialElem.elemMass b) /
            (m + SpatialElem.elemMass b),
          (com.y * m + (SpatialElem.pos b).y * SpatialElem.elemMass b) /
            (m + SpatialElem.elemMass b)⟩ (some b0) none := by
    unfold absorbMass QNode.x QNode.y QNode.size QNode.depth QNode.mass QNode.com
      QNode.body QNode.children
    rw [mul_comm com.x m, mul_comm com.y m]
  have heq : insertAux fuel (QNode.node x y size d m com (some b0) none) b pool =
      (QNode.node x y size d (m + SpatialElem.elemMass b)
        ⟨(com.x * m + (SpatialElem.pos b).x * SpatialElem.elemMass b) /
            (m + SpatialElem.elemMass b),
          (com.y * m + (SpatialElem.pos b).y * SpatialElem.elemMass b) /
            (m + SpatialElem.elemMass b)⟩ (some b0) none, pool) := by
    cases fuel with
    | zero =>
        show (absorbMass (QNode.node x y size d m com (some b0) none) b, pool) = _
        rw [habs]
    | succ f =>
        show (if (absorbMass (QNode.node x y size d m com (some b0) none) b).depth <
            PHYSICS.MAX_DEPTH then _ else
              (absorbMass (QNode.node x y size d m com (some b0) none) b, pool)) = _
        rw [habs]
        exact if_neg hd
  refine ⟨heq, ?_⟩
  intro cx cy r acc hmem
  rw [heq] at hmem
  simp only [queryNode] at hmem
  split_ifs at hmem with hcond
  · exact hmem
  · rw [List.mem_append, List.mem_singleton] at hmem
    rcases hmem with hmem | hmem
    · exact hmem
    · exact absurd hmem hne

/-- Witness for C10: a depth-16 occupied leaf with two distinct bodies. -/
theorem c10_max_depth_insert_witness :
    (¬ (16:ℕ) < PHYSICS.MAX_DEPTH ∧ c1Big ≠ c1Small) ∧
    (insertAux 17 (QNode.node 0 0 1 16 5 ⟨0, 0⟩ (some c1Small) none) c1Big [] =
      (QNode.node 0 0 1 16 (5 + SpatialElem.elemMass c1Big)
        ⟨((Vec2.mk 0 0).x * 5 + (SpatialElem.pos c1Big).x * SpatialElem.elemMass c1Big) /
            (5 + SpatialElem.elemMass c1Big),
          ((Vec2.mk 0 0).y * 5 + (SpatialElem.pos c1Big).y * SpatialElem.elemMass c1Big) /
            (5 + SpatialElem.elemMass c1Big)⟩ (some c1Small) none, []) ∧
      ∀ (cx cy r : ℝ) (acc : List Body),
        c1Big ∈ queryNode cx cy r
          (insertAux 17 (QNode.node 0 0 1 16 5 ⟨0, 0⟩ (some c1Small) none)
            c1Big []).1 acc →
        c1Big ∈ acc) := by
  have hd : ¬ (16:ℕ) < PHYSICS.MAX_DEPTH := by norm_num [PHYSICS.MAX_DEPTH]
  have hne : c1Big ≠ c1Small := by
    intro h
    have := congrArg Body.mass h
    norm_num [c1Big, c1Small] at this
  exact ⟨⟨hd, hne⟩, c10_max_depth_insert 0 0 1 16 5 ⟨0, 0⟩ c1Small c1Big hd hne 17 []⟩

/-! ## Claim C9: quadtree rebuilds are deterministic -/

theorem nodePop_fst {α : Type} (pool : NodePool α) (x y size : ℝ) (d : ℕ) :
    (nodePop pool x y size d).1 = QNode.fresh x y size d := by
  cases pool <;> rfl

/-- The node produced by insertAux, computed without the pool (proof
artifact: insertAux's node component never depends on the pool because
Node.reset overwrites every field of a recycled node). -/
def insertNode {α : Type} [SpatialElem α] : ℕ → QNode α → α → QNode α
  | 0, n, b => absorbMass n b
  | fuel + 1, n, b =>
    let n' := absorbMass n b
    match n'.children with
    | some cs =>
        let q := getQuadrant n' b
        QNode.node n'.x n'.y n'.size n'.depth n'.mass n'.com n'.body
          (some (setChild cs q (insertNode fuel (getChild cs q) b)))
    | none =>
      match n'.body with
      | none =>
          QNode.node n'.x n'.y n'.size n'.depth n'.mass n'.com (some b) none
      | some oldBody =>
          if n'.depth < PHYSICS.MAX_DEPTH then
            let half := n'.size / 2
            let nd := n'.depth + 1
            let cs := (QNode.fresh n'.x n'.y half nd,
              QNode.fresh (n'.x + half) n'.y half nd,
              QNode.fresh n'.x (n'.y + half) half nd,
              QNode.fresh (n'.x + half) (n'.y + half) half nd)
            let oldQ := getQuadrant n' oldBody
            let cs1 := setChild cs oldQ (insertNode fuel (getChild cs oldQ) oldBody)
            let newQ := getQuadrant n' b
            QNode.node n'.x n'.y n'.size n'.depth n'.mass n'.com none
              (some (setChild cs1 newQ (insertNode fuel (getChild cs1 newQ) b)))
          else n'

theorem insertAux_fst {α : Type} [SpatialElem α] :
    ∀ (fuel : ℕ) (n : QNode α) (b : α) (pool : NodePool α),
      (insertAux fuel n b pool).1 = insertNode fuel n b := by
  intro fuel
  induction fuel with
  | zero => intro n b pool; rfl
  | succ f ih =>
      intro n b pool
      simp only [insertAux, insertNode]
      cases hch : (absorbMass n b).children with
      | some cs => simp only [ih]
      | none =>
          cases hb : (absorbMass n b).body with
          | none => simp only
          | some oldBody =>
              simp only
              split_ifs with hdep
              · simp only [nodePop_fst, ih]
              · simp only

/-- The produced root of an insert does not depend on the node pool. -/
theorem insertAux_fst_pool {α : Type} [SpatialElem α]
    (fuel : ℕ) (n : QNode α) (b : α) (p q : NodePool α) :
    (insertAux fuel n b p).1 = (insertAux fuel n b q).1 := by
  rw [insertAux_fst, insertAux_fst]

theorem treeReset_root {α : Type} [SpatialElem α] (ts : TreeState α)
    (bounds : Bounds) :
    (ts.reset bounds).root =
      QNode.fresh bounds.x bounds.y (max bounds.width bounds.height) 0 := by
  unfold TreeState.reset
  exact nodePop_fst _ _ _ _ _

theorem insertAll_root_congr {α : Type} [SpatialElem α] :
    ∀ (bs : List α) (t1 t2 : TreeState α), t1.root = t2.root →
      (TreeState.insertAll t1 bs).root = (TreeState.insertAll t2 bs).root := by
  intro bs
  induction bs with
  | nil => intro t1 t2 h; exact h
  | cons b rest ih =>
      intro t1 t2 h
      show (TreeState.insertAll (t1.insert b) rest).root =
        (TreeState.insertAll (t2.insert b) rest).root
      apply ih
      show (insertAux (PHYSICS.MAX_DEPTH + 1) t1.root b t1.pool).1 =
        (insertAux (PHYSICS.MAX_DEPTH + 1) t2.root b t2.pool).1
      rw [h]
      exact insertAux_fst_pool _ _ _ _ _

/-- **C9.** For every bounds, every body list and every query body,
reset + in-order insertion + calculateForce yields exactly the same
acceleration on every repetition of that rebuild sequence, regardless of
the (pool) state the tree was left in — the construction and traversal
use no randomness, and the recycled-node pool is semantically inert. -/
theorem c9_rebuild_deterministic {α : Type} [SpatialElem α] [DecidableEq α]
    (ts1 ts2 : TreeState α) (bounds : Bounds) (bodies : List α) (q : α)
    (G soft : ℝ) :
    ((ts1.reset bounds).insertAll bodies).calculateForce q G soft =
    ((ts2.reset bounds).insertAll bodies).calculateForce q G soft := by
  unfold TreeState.calculateForce
  have h : ((ts1.reset bounds).insertAll bodies).root =
      ((ts2.reset bounds).insertAll bodies).root := by
    apply insertAll_root_congr
    rw [treeReset_root, treeReset_root]
  rw [h]

/-! ## Claim C6: the collision pass never consults collisionCooldown

The broad-phase pass of World._resolveCollisions filters pairs only by
liveness, debris flags and exact overlap; the collisionCooldown stamped on
resolver-created bodies is never read. This is established two ways: a
concrete world in which a body far inside its cooldown window is resolved
on the very next step (counterexample), and an invariance theorem: the
entire collision pass result is unchanged under any rewrite of the bodies
that preserves position, velocity, mass, radius and the debris flag —
in particular under arbitrary changes of collisionCooldown. -/

/-- Map over the bodies stored in a quadtree node. -/
def QNode.mapE {α β : Type} (g : α → β) : QNode α → QNode β
  | QNode.node x y s d m c b ch =>
    QNode.node x y s d m c (b.map g)
      (match ch with
       | some (c0, c1, c2, c3) =>
           some (c0.mapE g, c1.mapE g, c2.mapE g, c3.mapE g)
       | none => none)

/-- Map over each component of a children quadruple. -/
def quadMap {α β : Type} (g : α → β)
    (t : QNode α × QNode α × QNode α × QNode α) :
    QNode β × QNode β × QNode β × QNode β :=
  (t.1.mapE g, t.2.1.mapE g, t.2.2.1.mapE g, t.2.2.2.mapE g)

theorem mapE_node {α β : Type} (g : α → β) (x y s : ℝ) (d : ℕ) (m : ℝ)
    (c : Vec2) (b : Option α)
    (ch : Option (QNode α × QNode α × QNode α × QNode α)) :
    (QNode.node x y s d m c b ch).mapE g =
      QNode.node x y s d m c (b.map g) (ch.map (quadMap g)) := by
  cases ch with
  | some cs =>
      obtain ⟨c0, c1, c2, c3⟩ := cs
      simp only [QNode.mapE, quadMap]
      rfl
  | none =>
      simp only [QNode.mapE]
      rfl

theorem mapE_x {α β : Type} (g : α → β) (n : QNode α) : (n.mapE g).x = n.x := by
  cases n
  rw [mapE_node]
  rfl

theorem mapE_y {α β : Type} (g : α → β) (n : QNode α) : (n.mapE g).y = n.y := by
  cases n
  rw [mapE_node]
  rfl

theorem mapE_size {α β : Type} (g : α → β) (n : QNode α) :
    (n.mapE g).size = n.size := by
  cases n
  rw [mapE_node]
  rfl

theorem mapE_depth {α β : Type} (g : α → β) (n : QNode α) :
    (n.mapE g).depth = n.depth := by
  cases n
  rw [mapE_node]
  rfl

theorem mapE_mass {α β : Type} (g : α → β) (n : QNode α) :
    (n.mapE g).mass = n.mass := by
  cases n
  rw [mapE_node]
  rfl

theorem mapE_com {α β : Type} (g : α → β) (n : QNode α) : (n.mapE g).com = n.com := by
  cases n
  rw [mapE_node]
  rfl

theorem mapE_body {α β : Type} (g : α → β) (n : QNode α) :
    (n.mapE g).body = n.body.map g := by
  cases n
  rw [mapE_node]
  rfl

theorem mapE_children {α β : Type} (g : α → β) (n : QNode α) :
    (n.mapE g).children = n.children.map (quadMap g) := by
  cases n
  rw [mapE_node]
  rfl

theorem mapE_fresh {α β : Type} (g : α → β) (x y s : ℝ) (d : ℕ) :
    (QNode.fresh x y s d : QNode α).mapE g = QNode.fresh x y s d := by
  unfold QNode.fresh
  rw [mapE_node]
  rfl

theorem getChild_quadMap {α β : Type} (g : α → β)
    (cs : QNode α × QNode α × QNode α × QNode α) (q : ℕ) :
    getChild (quadMap g cs) q = (getChild cs q).mapE g := by
  rcases q with _ | _ | _ | q <;> rfl

theorem setChild_quadMap {α β : Type} (g : α → β)
    (cs : QNode α × QNode α × QNode α × QNode α) (q : ℕ) (c : QNode α) :
    setChild (quadMap g cs) q (c.mapE g) = quadMap g (setChild cs q c) := by
  rcases q with _ | _ | _ | q <;> rfl

/-- Preservation hypotheses: the element map keeps position and mass. -/
def PreservesGeom {α β : Type} [SpatialElem α] [SpatialElem β] (g : α → β) : Prop :=
  (∀ a, SpatialElem.pos (g a) = SpatialElem.pos a) ∧
  (∀ a, SpatialElem.elemMass (g a) = SpatialElem.elemMass a)

theorem getQuadrant_mapE {α β : Type} [SpatialElem α] [SpatialElem β]
    {g : α → β} (hg : PreservesGeom g) (n : QNode α) (a : α) :
    getQuadrant (n.mapE g) (g a) = getQuadrant n a := by
  unfold getQuadrant
  rw [mapE_x, mapE_y, mapE_size, hg.1]

theorem absorbMass_mapE {α β : Type} [SpatialElem α] [SpatialElem β]
    {g : α → β} (hg : PreservesGeom g) (n : QNode α) (a : α) :
    absorbMass (n.mapE g) (g a) = (absorbMass n a).mapE g := by
  unfold absorbMass
  rw [mapE_x, mapE_y, mapE_size, mapE_depth, mapE_mass, mapE_com, mapE_body,
    mapE_children, hg.1, hg.2, mapE_node]

theorem insertNode_mapE {α β : Type} [SpatialElem α] [SpatialElem β]
    {g : α → β} (hg : PreservesGeom g) :
    ∀ (fuel : ℕ) (n : QNode α) (a : α),
      insertNode fuel (n.mapE g) (g a) = (insertNode fuel n a).mapE g := by
  intro fuel
  induction fuel with
  | zero => intro n a; exact absorbMass_mapE hg n a
  | succ f ih =>
      intro n a
      simp only [insertNode]
      rw [absorbMass_mapE hg, mapE_children]
      cases hch : (absorbMass n a).children with
      | some cs =>
          simp only [Option.map_some', getQuadrant_mapE hg, mapE_x, mapE_y,
            mapE_size, mapE_depth, mapE_mass, mapE_com, mapE_body,
            getChild_quadMap, ih, setChild_quadMap]
          rw [mapE_node]
          simp only [Option.map_some']
      | none =>
          simp only [Option.map_none']
          rw [mapE_body]
          cases hb : (absorbMass n a).body with
          | none =>
              simp only [Option.map_none']
              rw [mapE_node]
              simp only [mapE_x, mapE_y, mapE_size, mapE_depth, mapE_mass,
                mapE_com]
              rfl
          | some oldBody =>
              simp only [Option.map_some', mapE_depth]
              split_ifs with hdep
              · simp only [mapE_x, mapE_y, mapE_size, mapE_depth, mapE_mass,
                  mapE_com, getQuadrant_mapE hg]
                have hfq : ∀ (h : ℝ) (nd : ℕ),
                    ((QNode.fresh (absorbMass n a).x (absorbMass n a).y h nd : QNode β),
                      (QNode.fresh ((absorbMass n a).x + h) (absorbMass n a).y h nd : QNode β),
                      (QNode.fresh (absorbMass n a).x ((absorbMass n a).y + h) h nd : QNode β),
                      (QNode.fresh ((absorbMass n a).x + h) ((absorbMass n a).y + h) h nd : QNode β)) =
                    quadMap g
                      ((QNode.fresh (absorbMass n a).x (absorbMass n a).y h nd : QNode α),
                        (QNode.fresh ((absorbMass n a).x + h) (absorbMass n a).y h nd : QNode α),
                        (QNode.fresh (absorbMass n a).x ((absorbMass n a).y + h) h nd : QNode α),
                        (QNode.fresh ((absorbMass n a).x + h) ((absorbMass n a).y + h) h nd : QNode α)) := by
                  intro h nd
                  simp only [quadMap, mapE_fresh]
                rw [hfq]
                simp only [getChild_quadMap, ih, setChild_quadMap]
                rw [mapE_node]
                simp only [Option.map_none', Option.map_some']
              · rfl

theorem queryNode_mapE {α β : Type} (g : α → β) (cx cy r : ℝ) :
    ∀ (n : QNode α) (acc : List α),
      queryNode cx cy r (n.mapE g) (acc.map g) = (queryNode cx cy r n acc).map g
  | QNode.node x y s d m c b ch, acc => by
    rw [mapE_node]
    cases ch with
    | some cs =>
        obtain ⟨c0, c1, c2, c3⟩ := cs
        cases b with
        | some bb =>
            simp only [queryNode, Option.map_some', quadMap]
            split_ifs with hcond
            · rfl
            · rw [show List.map g acc ++ [g bb] = (acc ++ [bb]).map g by
                simp]
              rw [queryNode_mapE g cx cy r c0, queryNode_mapE g cx cy r c1,
                queryNode_mapE g cx cy r c2, queryNode_mapE g cx cy r c3]
        | none =>
            simp only [queryNode, Option.map_none', Option.map_some', quadMap]
            split_ifs with hcond
            · rfl
            · rw [queryNode_mapE g cx cy r c0, queryNode_mapE g cx cy r c1,
                queryNode_mapE g cx cy r c2, queryNode_mapE g cx cy r c3]
    | none =>
        cases b with
        | some bb =>
            simp only [queryNode, Option.map_some', Option.map_none']
            split_ifs with hcond
            · rfl
            · simp
        | none =>
            simp only [queryNode, Option.map_none']
            split_ifs with hcond <;> rfl

theorem insertAll_root_foldl {α : Type} [SpatialElem α] :
    ∀ (l : List α) (ts : TreeState α),
      (TreeState.insertAll ts l).root =
        l.foldl (fun n a => insertNode (PHYSICS.MAX_DEPTH + 1) n a) ts.root := by
  intro l
  induction l with
  | nil => intro ts; rfl
  | cons a rest ih =>
      intro ts
      show (TreeState.insertAll (ts.insert a) rest).root = _
      rw [ih]
      simp only [List.foldl_cons]
      rw [show (ts.insert a).root = insertNode (PHYSICS.MAX_DEPTH + 1) ts.root a from
        insertAux_fst _ _ _ _]

theorem foldl_insertNode_map {α β : Type} [SpatialElem α] [SpatialElem β]
    {g : α → β} (hg : PreservesGeom g) :
    ∀ (l : List α) (r : QNode α),
      (l.map g).foldl (fun n a => insertNode (PHYSICS.MAX_DEPTH + 1) n a) (r.mapE g) =
        (l.foldl (fun n a => insertNode (PHYSICS.MAX_DEPTH + 1) n a) r).mapE g := by
  intro l
  induction l with
  | nil => intro r; rfl
  | cons a rest ih =>
      intro r
      simp only [List.map_cons, List.foldl_cons]
      rw [insertNode_mapE hg]
      exact ih _

/-- A body rewrite that keeps every field the collision pass reads:
position, velocity, mass, radius and the debris flag. It may change
collisionCooldown (and trail/shape/acceleration) arbitrarily. -/
def PreservesBodyGeom (f : Body → Body) : Prop :=
  ∀ b, (f b).position = b.position ∧ (f b).velocity = b.velocity ∧
    (f b).mass = b.mass ∧ (f b).radius = b.radius ∧ (f b).isDebris = b.isDebris

theorem computeOutcome_congr (G soft time : ℝ) (rand : ℕ → ℝ)
    {f : Body → Body} (hf : PreservesBodyGeom f) (b1 b2 : Body) :
    computeOutcome G soft time (f b1) (f b2) rand =
      computeOutcome G soft time b1 b2 rand := by
  have hp : ∀ b, (f b).position = b.position := fun b => (hf b).1
  have hv : ∀ b, (f b).velocity = b.velocity := fun b => (hf b).2.1
  have hm : ∀ b, (f b).mass = b.mass := fun b => (hf b).2.2.1
  have hr : ∀ b, (f b).radius = b.radius := fun b => (hf b).2.2.2.1
  have hratio : jsRatio (f b1) (f b2) = jsRatio b1 b2 := by
    simp only [jsRatio, hm]
  have hmr : massRatioOf (f b1) (f b2) = massRatioOf b1 b2 := by
    simp only [massRatioOf, hm]
  have halpha : collisionAlpha G soft (f b1) (f b2) = collisionAlpha G soft b1 b2 := by
    simp only [collisionAlpha, escVelOf, relSpeedOf, hm, hr, hv]
  have hvcm : vcmOf (f b1) (f b2) = vcmOf b1 b2 := by
    simp only [vcmOf, hv, hm]
  have hnorm : normalOf (f b1) (f b2) = normalOf b1 b2 := by
    simp only [normalOf, hp, hr]
  have hmb : createMergedBody (f b1) (f b2) = createMergedBody b1 b2 := by
    simp only [createMergedBody, hp, hv, hm, hr]
  have hbs : ∀ (big small : Body) (alpha : ℝ) (normal vcm : Vec2),
      collisionBigSmall time (f big) (f small) alpha normal vcm rand =
        collisionBigSmall time big small alpha normal vcm rand := by
    intro big small alpha normal vcm
    have hmk : BS.mkFrag time (f big) (f small) alpha normal vcm rand =
        BS.mkFrag time big small alpha normal vcm rand :=
      funext fun k => by
        simp only [BS.mkFrag, BS.dirOf, BS.singleFragMass, BS.fragmentMassTotal,
          BS.destructionFactor, BS.fragCount, hp, hv, hm, hr]
    simp only [collisionBigSmall, BS.core, BS.mergedMass, BS.mergedRadius,
      BS.fragmentMassTotal, BS.destructionFactor, BS.dirOf, BS.fragCount,
      BS.singleFragMass, hmk, hp, hv, hm, hr]
  have hfb : ∀ (alpha : ℝ) (normal vcm : Vec2),
      fragmentBoth G time (f b1) (f b2) alpha normal vcm rand =
        fragmentBoth G time b1 b2 alpha normal vcm rand := by
    intro alpha normal vcm
    have hmk : FB.mkFrag G time (f b1) (f b2) alpha normal vcm rand =
        FB.mkFrag G time b1 b2 alpha normal vcm rand :=
      funext fun k => by
        simp only [FB.mkFrag, FB.contactPoint, FB.baseKick, FB.singleFragMass,
          FB.fragmentMassTotal, FB.lostMass1, FB.lostMass2, FB.damage1,
          FB.damage2, FB.damageSum, FB.baseLoss, FB.fragCount, FB.maxByMass,
          FB.minFragMass, FB.minFragRadius, hp, hv, hm, hr]
    simp only [fragmentBoth, fbCores, fbFrags, FB.damage1, FB.damage2,
      FB.damageSum, FB.baseLoss, FB.lostMass1, FB.lostMass2, FB.coreMass1,
      FB.coreMass2, FB.core1, FB.core2, FB.fragmentMassTotal, FB.minFragRadius,
      FB.minFragMass, FB.maxByMass, FB.fragCount, FB.singleFragMass,
      FB.contactPoint, FB.baseKick, hmk, hp, hv, hm, hr]
  by_cases hge : b1.mass ≥ b2.mass
  · simp only [computeOutcome, hratio, halpha, hmr, hnorm, hvcm, hm, hmb,
      if_pos hge, hbs, hfb]
  · simp only [computeOutcome, hratio, halpha, hmr, hnorm, hvcm, hm, hmb,
      if_neg hge, hbs, hfb]

theorem find?_map_congr {α β : Type} (g : α → β) (pB : β → Bool) (pA : α → Bool)
    (h : ∀ a, pB (g a) = pA a) (l : List α) :
    (l.map g).find? pB = (l.find? pA).map g := by
  rw [List.find?_map]
  have hfun : pB ∘ g = pA := funext h
  rw [hfun]

theorem resolveOne_congr {f : Body → Body} (hf : PreservesBodyGeom f)
    (tM tO : TreeState (ℕ × Body))
    (hroot : tM.root = tO.root.mapE (Prod.map id f))
    (time : ℝ) (rand : ℕ → ℕ → ℝ) (acc : ResolveAcc) (ib : ℕ × Body) :
    resolveOne tM time rand acc (Prod.map id f ib) =
      resolveOne tO time rand acc ib := by
  have hp : ∀ b, (f b).position = b.position := fun b => (hf b).1
  have hr : ∀ b, (f b).radius = b.radius := fun b => (hf b).2.2.2.1
  have hd : ∀ b, (f b).isDebris = b.isDebris := fun b => (hf b).2.2.2.2
  obtain ⟨i, bi⟩ := ib
  unfold resolveOne
  simp only [Prod.map_fst, Prod.map_snd, id_eq, hp, hr, hd]
  have hquery : tM.query bi.position.x bi.position.y
      (bi.radius + PHYSICS.SEARCH_PADDING) =
      (tO.query bi.position.x bi.position.y
        (bi.radius + PHYSICS.SEARCH_PADDING)).map (Prod.map id f) := by
    unfold TreeState.query
    rw [hroot]
    exact queryNode_mapE (Prod.map id f) _ _ _ tO.root []
  rw [hquery]
  rw [find?_map_congr (Prod.map id f) _
    (fun jb : ℕ × Body =>
      decide (¬i = jb.1) && decide (jb.1 ∉ acc.dead) &&
      !(bi.isDebris && jb.2.isDebris) &&
      decide ((jb.2.position.x - bi.position.x) *
          (jb.2.position.x - bi.position.x) +
          (jb.2.position.y - bi.position.y) *
          (jb.2.position.y - bi.position.y) <
        (bi.radius + jb.2.radius) * (bi.radius + jb.2.radius)))
    (fun jb => by
      simp only [Prod.map_fst, Prod.map_snd, id_eq, hp, hr, hd])]
  cases hfind : (tO.query bi.position.x bi.position.y
      (bi.radius + PHYSICS.SEARCH_PADDING)).find?
      (fun jb : ℕ × Body =>
        decide (¬i = jb.1) && decide (jb.1 ∉ acc.dead) &&
        !(bi.isDebris && jb.2.isDebris) &&
        decide ((jb.2.position.x - bi.position.x) *
            (jb.2.position.x - bi.position.x) +
            (jb.2.position.y - bi.position.y) *
            (jb.2.position.y - bi.position.y) <
          (bi.radius + jb.2.radius) * (bi.radius + jb.2.radius))) with
  | none => simp only [Option.map_none']
  | some jb =>
      simp only [Option.map_some', Prod.map_fst, Prod.map_snd, id_eq]
      rw [computeOutcome_congr _ _ _ _ hf]

theorem resolveFold_congr {f : Body → Body} (hf : PreservesBodyGeom f)
    (tM tO : TreeState (ℕ × Body))
    (hroot : tM.root = tO.root.mapE (Prod.map id f)) (time : ℝ)
    (rand : ℕ → ℕ → ℝ) :
    ∀ (l : List (ℕ × Body)) (acc : ResolveAcc),
      (l.map (Prod.map id f)).foldl (resolveOne tM time rand) acc =
        l.foldl (resolveOne tO time rand) acc := by
  intro l
  induction l with
  | nil => intro acc; rfl
  | cons a rest ih =>
      intro acc
      simp only [List.map_cons, List.foldl_cons]
      rw [resolveOne_congr hf tM tO hroot]
      exact ih _

/-- **C6 amended.** The resolver stamps collisionCooldown on the bodies it
creates, but the World's collision pass never reads it: the entire result
of the collision pass — dead bodies, generated bodies and collision count —
is invariant under any rewrite of the input bodies that preserves position,
velocity, mass, radius and the debris flag, in particular under arbitrary
changes of collisionCooldown. A body within its cooldown window is
therefore not collision-immune. -/
theorem c6_cooldown_never_checked (bodies : List Body) (f : Body → Body)
    (hf : PreservesBodyGeom f) (x y s : ℝ) (d : ℕ)
    (t1 t2 : TreeState (ℕ × Body))
    (h1 : t1.root = QNode.fresh x y s d) (h2 : t2.root = QNode.fresh x y s d)
    (time : ℝ) (rand : ℕ → ℕ → ℝ) :
    (resolveCollisionsCore (bodies.map f) t1 time rand).1 =
      (resolveCollisionsCore bodies t2 time rand).1 := by
  have hg : PreservesGeom (Prod.map (id : ℕ → ℕ) f) :=
    ⟨fun a => by obtain ⟨i, b⟩ := a; show (f b).position = b.position; exact (hf b).1,
     fun a => by obtain ⟨i, b⟩ := a; show (f b).mass = b.mass; exact (hf b).2.2.1⟩
  unfold resolveCollisionsCore
  simp only
  rw [List.enum_map]
  have hroot : (TreeState.insertAll t1 (bodies.enum.map (Prod.map id f))).root =
      ((TreeState.insertAll t2 bodies.enum).root).mapE (Prod.map id f) := by
    rw [insertAll_root_foldl, insertAll_root_foldl, h1, h2]
    rw [← mapE_fresh (Prod.map id f) x y s d]
    exact foldl_insertNode_map hg _ _
  exact resolveFold_congr hf _ _ hroot time rand bodies.enum ⟨[], [], 0⟩

/-- Cooldown rewrite used by the C6 witness. -/
def cooldownBump : Body → Body :=
  fun b => { b with collisionCooldown := b.collisionCooldown + 1000 }

/-- Witness for the amended C6: bumping every cooldown by 1000 changes
nothing in the collision pass of a concrete two-body world. -/
theorem c6_cooldown_never_checked_witness :
    (PreservesBodyGeom cooldownBump ∧
      (⟨QNode.fresh 0 0 1 0, []⟩ : TreeState (ℕ × Body)).root =
        QNode.fresh 0 0 1 0) ∧
    (resolveCollisionsCore ([c1Big, c1Small].map cooldownBump)
        ⟨QNode.fresh 0 0 1 0, []⟩ 0 (fun _ _ => 1/2)).1 =
      (resolveCollisionsCore [c1Big, c1Small]
        ⟨QNode.fresh 0 0 1 0, []⟩ 0 (fun _ _ => 1/2)).1 := by
  have hfp : PreservesBodyGeom cooldownBump := fun b => ⟨rfl, rfl, rfl, rfl, rfl⟩
  exact ⟨⟨hfp, rfl⟩,
    c6_cooldown_never_checked [c1Big, c1Small] cooldownBump hfp 0 0 1 0 _ _
      rfl rfl 0 (fun _ _ => 1/2)⟩

/-- Concrete C6 body 1: at rest at the origin. -/
def cb1 : Body := { position := ⟨0, 0⟩, velocity := ⟨0, 0⟩, mass := 4, radius := 2 }

/-- Concrete C6 body 2: overlapping cb1, deep inside its cooldown window. -/
def cb2 : Body :=
  { position := ⟨1, 0⟩, velocity := ⟨0, 0⟩, mass := 4, radius := 2,
    collisionCooldown := 1000 }

/-- Concrete C6 world at time 0 holding the overlapping pair. -/
def c6World : WorldState :=
  { bodies := [cb1, cb2], time := 0, collisionCount := 0,
    stepsSinceLastTrail := 0,
    gravityTree := ⟨QNode.fresh 0 0 1 0, []⟩,
    collisionTree := ⟨QNode.fresh 0 0 1 0, []⟩ }

theorem c6_insert1 : insertNode (PHYSICS.MAX_DEPTH + 1)
    (QNode.fresh (-10) (-10) 21 0 : QNode (ℕ × Body)) ((0 : ℕ), cb1) =
    QNode.node (-10) (-10) 21 0 4 ⟨0, 0⟩ (some (0, cb1)) none := by
  simp only [insertNode, absorbMass, QNode.fresh, QNode.x, QNode.y, QNode.size,
    QNode.depth, QNode.mass, QNode.com, QNode.body, QNode.children, cb1,
    pos_pair, elemMass_pair]
  norm_num

theorem insertNode_emptyLeaf {α : Type} [SpatialElem α] (fuel : ℕ) (n : QNode α)
    (b : α) (hch : (absorbMass n b).children = none)
    (hb : (absorbMass n b).body = none) :
    insertNode (fuel + 1) n b =
      QNode.node (absorbMass n b).x (absorbMass n b).y (absorbMass n b).size
        (absorbMass n b).depth (absorbMass n b).mass (absorbMass n b).com
        (some b) none := by
  simp only [insertNode]
  rw [hch, hb]

theorem insertNode_subdivide {α : Type} [SpatialElem α] (fuel : ℕ) (n : QNode α)
    (b oldBody : α) (hch : (absorbMass n b).children = none)
    (hb : (absorbMass n b).body = some oldBody)
    (hd : (absorbMass n b).depth < PHYSICS.MAX_DEPTH) :
    insertNode (fuel + 1) n b =
      (QNode.node (absorbMass n b).x (absorbMass n b).y (absorbMass n b).size
        (absorbMass n b).depth (absorbMass n b).mass (absorbMass n b).com none
        (some (setChild
          (setChild
            (QNode.fresh (absorbMass n b).x (absorbMass n b).y
              ((absorbMass n b).size / 2) ((absorbMass n b).depth + 1),
             QNode.fresh ((absorbMass n b).x + (absorbMass n b).size / 2)
              (absorbMass n b).y ((absorbMass n b).size / 2)
              ((absorbMass n b).depth + 1),
             QNode.fresh (absorbMass n b).x
              ((absorbMass n b).y + (absorbMass n b).size / 2)
              ((absorbMass n b).size / 2) ((absorbMass n b).depth + 1),
             QNode.fresh ((absorbMass n b).x + (absorbMass n b).size / 2)
              ((absorbMass n b).y + (absorbMass n b).size / 2)
              ((absorbMass n b).size / 2) ((absorbMass n b).depth + 1))
            (getQuadrant (absorbMass n b) oldBody)
            (insertNode fuel
              (getChild
                (QNode.fresh (absorbMass n b).x (absorbMass n b).y
                  ((absorbMass n b).size / 2) ((absorbMass n b).depth + 1),
                 QNode.fresh ((absorbMass n b).x + (absorbMass n b).size / 2)
                  (absorbMass n b).y ((absorbMass n b).size / 2)
                  ((absorbMass n b).depth + 1),
                 QNode.fresh (absorbMass n b).x
                  ((absorbMass n b).y + (absorbMass n b).size / 2)
                  ((absorbMass n b).size / 2) ((absorbMass n b).depth + 1),
                 QNode.fresh ((absorbMass n b).x + (absorbMass n b).size / 2)
                  ((absorbMass n b).y + (absorbMass n b).size / 2)
                  ((absorbMass n b).size / 2) ((absorbMass n b).depth + 1))
                (getQuadrant (absorbMass n b) oldBody)) oldBody))
          (getQuadrant (absorbMass n b) b)
          (insertNode fuel
            (getChild
              (setChild
                (QNode.fresh (absorbMass n b).x (absorbMass n b).y
                  ((absorbMass n b).size / 2) ((absorbMass n b).depth + 1),
                 QNode.fresh ((absorbMass n b).x + (absorbMass n b).size / 2)
                  (absorbMass n b).y ((absorbMass n b).size / 2)
                  ((absorbMass n b).depth + 1),
                 QNode.fresh (absorbMass n b).x
                  ((absorbMass n b).y + (absorbMass n b).size / 2)
                  ((absorbMass n b).size / 2) ((absorbMass n b).depth + 1),
                 QNode.fresh ((absorbMass n b).x + (absorbMass n b).size / 2)
                  ((absorbMass n b).y + (absorbMass n b).size / 2)
                  ((absorbMass n b).size / 2) ((absorbMass n b).depth + 1))
                (getQuadrant (absorbMass n b) oldBody)
                (insertNode fuel
                  (getChild
                    (QNode.fresh (absorbMass n b).x (absorbMass n b).y
                      ((absorbMass n b).size / 2) ((absorbMass n b).depth + 1),
                     QNode.fresh ((absorbMass n b).x + (absorbMass n b).size / 2)
                      (absorbMass n b).y ((absorbMass n b).size / 2)
                      ((absorbMass n b).depth + 1),
                     QNode.fresh (absorbMass n b).x
                      ((absorbMass n b).y + (absorbMass n b).size / 2)
                      ((absorbMass n b).size / 2) ((absorbMass n b).depth + 1),
                     QNode.fresh ((absorbMass n b).x + (absorbMass n b).size / 2)
                      ((absorbMass n b).y + (absorbMass n b).size / 2)
                      ((absorbMass n b).size / 2) ((absorbMass n b).depth + 1))
                    (getQuadrant (absorbMass n b) oldBody)) oldBody))
              (getQuadrant (absorbMass n b) b)) b)))) := by
  simp only [insertNode]
  rw [hch, hb]
  simp only [if_pos hd]

theorem c6_absorb2 :
    absorbMass (QNode.node (-10) (-10) 21 0 4 ⟨0, 0⟩ (some ((0 : ℕ), cb1)) none)
      ((1 : ℕ), cb2) =
    QNode.node (-10) (-10) 21 0 8 ⟨1/2, 0⟩ (some ((0 : ℕ), cb1)) none := by
  simp only [absorbMass, QNode.x, QNode.y, QNode.size, QNode.depth, QNode.mass,
    QNode.com, QNode.body, QNode.children, pos_pair, elemMass_pair, cb2]
  norm_num

theorem c6_insertFresh0 :
    insertNode PHYSICS.MAX_DEPTH (QNode.fresh (-10) (-10) (21/2) 1 : QNode (ℕ × Body))
      ((0 : ℕ), cb1) =
    QNode.node (-10) (-10) (21/2) 1 4 ⟨0, 0⟩ (some (0, cb1)) none := by
  rw [show PHYSICS.MAX_DEPTH = 15 + 1 from rfl]
  rw [insertNode_emptyLeaf 15 (QNode.fresh (-10) (-10) (21/2) 1)
    ((0 : ℕ), cb1) rfl rfl]
  simp only [absorbMass, QNode.fresh, QNode.x, QNode.y, QNode.size, QNode.depth,
    QNode.mass, QNode.com, pos_pair, elemMass_pair, cb1]
  norm_num

theorem c6_insertFresh1 :
    insertNode PHYSICS.MAX_DEPTH (QNode.fresh (1/2) (-10) (21/2) 1 : QNode (ℕ × Body))
      ((1 : ℕ), cb2) =
    QNode.node (1/2) (-10) (21/2) 1 4 ⟨1, 0⟩ (some (1, cb2)) none := by
  rw [show PHYSICS.MAX_DEPTH = 15 + 1 from rfl]
  rw [insertNode_emptyLeaf 15 (QNode.fresh (1/2) (-10) (21/2) 1)
    ((1 : ℕ), cb2) rfl rfl]
  simp only [absorbMass, QNode.fresh, QNode.x, QNode.y, QNode.size, QNode.depth,
    QNode.mass, QNode.com, pos_pair, elemMass_pair, cb2]
  norm_num

theorem c6_insert2 : insertNode (PHYSICS.MAX_DEPTH + 1)
    (QNode.node (-10) (-10) 21 0 4 ⟨0, 0⟩ (some ((0 : ℕ), cb1)) none) ((1 : ℕ), cb2) =
    QNode.node (-10) (-10) 21 0 8 ⟨1/2, 0⟩ none
      (some (QNode.node (-10) (-10) (21/2) 1 4 ⟨0, 0⟩ (some (0, cb1)) none,
        QNode.node (1/2) (-10) (21/2) 1 4 ⟨1, 0⟩ (some (1, cb2)) none,
        QNode.fresh (-10) (1/2) (21/2) 1,
        QNode.fresh (1/2) (1/2) (21/2) 1)) := by
  rw [insertNode_subdivide PHYSICS.MAX_DEPTH _ _ (0, cb1)
    (by rw [c6_absorb2]; rfl) (by rw [c6_absorb2]; rfl)
    (by rw [c6_absorb2]; simp only [QNode.depth]; norm_num [PHYSICS.MAX_DEPTH])]
  rw [c6_absorb2]
  have hqOld : getQuadrant
      (QNode.node (-10) (-10) 21 0 8 ⟨1/2, 0⟩ (some ((0 : ℕ), cb1)) none)
      ((0 : ℕ), cb1) = 0 := by
    simp only [getQuadrant, QNode.x, QNode.y, QNode.size, pos_pair, cb1]
    norm_num
  have hqNew : getQuadrant
      (QNode.node (-10) (-10) 21 0 8 ⟨1/2, 0⟩ (some ((0 : ℕ), cb1)) none)
      ((1 : ℕ), cb2) = 1 := by
    simp only [getQuadrant, QNode.x, QNode.y, QNode.size, pos_pair, cb2]
    norm_num
  rw [hqOld, hqNew]
  simp only [QNode.x, QNode.y, QNode.size, QNode.depth, QNode.mass, QNode.com,
    getChild, setChild]
  rw [show (-10 : ℝ) + 21 / 2 = 1/2 by norm_num]
  rw [c6_insertFresh0, c6_insertFresh1]

/-- The collision tree root built by the C6 world's step. -/
def c6Root : QNode (ℕ × Body) :=
  QNode.node (-10) (-10) 21 0 8 ⟨1/2, 0⟩ none
    (some (QNode.node (-10) (-10) (21/2) 1 4 ⟨0, 0⟩ (some (0, cb1)) none,
      QNode.node (1/2) (-10) (21/2) 1 4 ⟨1, 0⟩ (some (1, cb2)) none,
      QNode.fresh (-10) (1/2) (21/2) 1,
      QNode.fresh (1/2) (1/2) (21/2) 1))

theorem c6_query_eval : queryNode (0:ℝ) 0 12 c6Root [] = [((0:ℕ), cb1), (1, cb2)] := by
  simp only [c6Root, queryNode, QNode.fresh]
  norm_num

theorem c6_alpha : collisionAlpha 60 8 cb1 cb2 = 0 := by
  unfold collisionAlpha
  have h : relSpeedOf cb1 cb2 = 0 := by
    unfold relSpeedOf hypot cb1 cb2
    simp only
    norm_num
  rw [h]
  simp [zero_div]

theorem c6_outcome (r : ℕ → ℝ) :
    computeOutcome 60 8 0 cb1 cb2 r = [createMergedBody cb1 cb2] := by
  unfold computeOutcome
  rw [if_neg (by norm_num [cb1, cb2] : ¬(cb1.mass + cb2.mass ≤ 0))]
  rw [if_neg (by norm_num [jsRatio, cb1, cb2] : ¬(jsRatio cb1 cb2 > 1000))]
  rw [if_pos (by rw [c6_alpha]; norm_num [PHYSICS.ALPHA_MERGE])]

theorem c6_resolveOne0 (t : TreeState (ℕ × Body)) (ht : t.root = c6Root)
    (rand : ℕ → ℕ → ℝ) :
    resolveOne t 0 rand ⟨[], [], 0⟩ ((0 : ℕ), cb1) =
      ⟨[0, 1], [createMergedBody cb1 cb2], 1⟩ := by
  unfold resolveOne
  simp only [List.not_mem_nil, if_false]
  rw [if_neg (show ¬cb1.isDebris = true by simp [cb1])]
  have hq : t.query cb1.position.x cb1.position.y
      (cb1.radius + PHYSICS.SEARCH_PADDING) = [((0:ℕ), cb1), ((1:ℕ), cb2)] := by
    unfold TreeState.query
    rw [ht]
    rw [show cb1.radius + PHYSICS.SEARCH_PADDING = (12:ℝ) by
      norm_num [cb1, PHYSICS.SEARCH_PADDING]]
    exact c6_query_eval
  rw [hq]
  rw [List.find?_cons_of_neg _ (by simp [cb1])]
  rw [List.find?_cons_of_pos _ (by
    simp only [cb1, cb2, Bool.and_eq_true, decide_eq_true_eq]
    norm_num)]
  simp only
  rw [show PHYSICS.GRAVITY_CONSTANT = (60:ℝ) from rfl,
    show PHYSICS.SOFTENING = (8:ℝ) from rfl]
  rw [c6_outcome]
  simp

theorem c6_resolveOne1 (t : TreeState (ℕ × Body)) (rand : ℕ → ℕ → ℝ) :
    resolveOne t 0 rand ⟨[0, 1], [createMergedBody cb1 cb2], 1⟩ ((1 : ℕ), cb2) =
      ⟨[0, 1], [createMergedBody cb1 cb2], 1⟩ := by
  unfold resolveOne
  rw [if_pos (by simp :
    ((1:ℕ), cb2).1 ∈ (⟨[0, 1], [createMergedBody cb1 cb2], 1⟩ : ResolveAcc).dead)]

theorem c6_resolveCore (tree0 : TreeState (ℕ × Body))
    (h0 : tree0.root = QNode.fresh (-10) (-10) 21 0) (rand : ℕ → ℕ → ℝ) :
    (resolveCollisionsCore [cb1, cb2] tree0 0 rand).1 =
      ⟨[0, 1], [createMergedBody cb1 cb2], 1⟩ := by
  unfold resolveCollisionsCore
  simp only
  rw [show [cb1, cb2].enum = [((0:ℕ), cb1), ((1:ℕ), cb2)] from rfl]
  have hroot : (TreeState.insertAll tree0 [((0:ℕ), cb1), ((1:ℕ), cb2)]).root =
      c6Root := by
    rw [insertAll_root_foldl, h0]
    simp only [List.foldl_cons, List.foldl_nil]
    rw [c6_insert1, c6_insert2]
    rfl
  simp only [List.foldl_cons, List.foldl_nil]
  rw [c6_resolveOne0 _ hroot rand, c6_resolveOne1 _ rand]

theorem c6_integrate1 : integrateBody (1/60) false cb1 = cb1 := by
  simp only [integrateBody, cb1, Bool.false_eq_true, if_false]
  norm_num

theorem c6_integrate2 : integrateBody (1/60) false cb2 = cb2 := by
  simp only [integrateBody, cb2, Bool.false_eq_true, if_false]
  norm_num

theorem c6_bounds : worldBounds [cb1, cb2] = ⟨-10, -10, 21, 20⟩ := by
  unfold worldBounds minList maxList
  simp only [List.map_cons, List.map_nil, List.foldl_cons, List.foldl_nil, cb1, cb2,
    PHYSICS.SEARCH_PADDING]
  norm_num

theorem c6_force (t : TreeState (ℕ × Body))
    (hroot : t.root = QNode.fresh (-10) (-10) 21 0) (ib : ℕ × Body) (G soft : ℝ) :
    t.calculateForce ib G soft = ⟨0, 0⟩ := by
  unfold TreeState.calculateForce
  rw [hroot]
  unfold QNode.fresh
  simp only [calcForce]
  simp

theorem c6_gravity (t : TreeState (ℕ × Body))
    (hroot : t.root = QNode.fresh (-10) (-10) 21 0) :
    (applyGravity [cb1, cb2] t).1 = [cb1, cb2] := by
  unfold applyGravity
  simp only
  rw [show [cb1, cb2].map (fun b => { b with acceleration := (⟨0, 0⟩ : Vec2) }) =
    [cb1, cb2] by simp [cb1, cb2]]
  rw [show [cb1, cb2].enum = [((0:ℕ), cb1), ((1:ℕ), cb2)] from rfl]
  have htree : ([((0:ℕ), cb1), ((1:ℕ), cb2)].foldl
      (fun t ib => if ib.2.mass > PHYSICS.MIN_GRAVITY_MASS then t.insert ib else t)
      t) = t := by
    simp only [List.foldl_cons, List.foldl_nil]
    rw [if_neg (by norm_num [cb1, PHYSICS.MIN_GRAVITY_MASS] :
      ¬(((0:ℕ), cb1).2.mass > PHYSICS.MIN_GRAVITY_MASS))]
    rw [if_neg (by norm_num [cb2, PHYSICS.MIN_GRAVITY_MASS] :
      ¬(((1:ℕ), cb2).2.mass > PHYSICS.MIN_GRAVITY_MASS))]
  rw [htree]
  simp only [List.map_cons, List.map_nil]
  rw [c6_force t hroot, c6_force t hroot]
  simp [cb1, cb2]

theorem c6_integrateVel1 : integrateVel (1/60) cb1 = cb1 := by
  simp only [integrateVel, cb1]
  norm_num

theorem c6_integrateVel2 : integrateVel (1/60) cb2 = cb2 := by
  simp only [integrateVel, cb2]
  norm_num

theorem c6_step_eval :
    (c6World.step (1/60) (fun _ _ => 1/2)).collisionCount = 1 ∧
    (c6World.step (1/60) (fun _ _ => 1/2)).bodies = [createMergedBody cb1 cb2] := by
  unfold WorldState.step
  rw [if_neg (by norm_num : ¬((1:ℝ)/60 ≤ 0))]
  rw [if_neg (by simp [c6World] : ¬(c6World.bodies = []))]
  simp only [c6World]
  rw [show (decide ((0 + 1 : ℕ) ≥ PHYSICS.TRAIL_INTERVAL)) = false from by decide]
  simp only [List.map_cons, List.map_nil, c6_integrate1, c6_integrate2, c6_bounds]
  have hrootG : ((⟨QNode.fresh 0 0 1 0, []⟩ : TreeState (ℕ × Body)).reset
      ⟨-10, -10, 21, 20⟩).root = QNode.fresh (-10) (-10) 21 0 := by
    rw [treeReset_root]
    rw [show max (21:ℝ) 20 = 21 by norm_num]
  rw [c6_gravity _ hrootG]
  simp only [List.map_cons, List.map_nil, c6_integrateVel1, c6_integrateVel2]
  rw [c6_resolveCore _ hrootG (fun _ _ => 1/2)]
  have hcompact : compactAppend [cb1, cb2] [0, 1] [createMergedBody cb1 cb2] =
      [createMergedBody cb1 cb2] := rfl
  rw [if_pos (by simp : ((⟨[0, 1], [createMergedBody cb1 cb2], 1⟩ :
    ResolveAcc).dead ≠ [] ∨ (⟨[0, 1], [createMergedBody cb1 cb2], 1⟩ :
    ResolveAcc).generated ≠ []))]
  rw [hcompact]
  exact ⟨rfl, rfl⟩

/-- **C6 counterexample.** In the concrete two-body world, cb2's
collisionCooldown (1000) is far above the world time (0), yet a single
step resolves a destructive collision involving cb2: the collision counter
becomes 1 and cb2 is replaced by the merged body. -/
theorem c6_counterexample :
    cb2.collisionCooldown > c6World.time ∧
    (c6World.step (1/60) (fun _ _ => 1/2)).collisionCount = 1 ∧
    cb2 ∉ (c6World.step (1/60) (fun _ _ => 1/2)).bodies := by
  refine ⟨by norm_num [cb2, c6World], (c6_step_eval).1, ?_⟩
  rw [(c6_step_eval).2]
  intro hmem
  rw [List.mem_singleton] at hmem
  have hmass := congrArg Body.mass hmem
  have : (createMergedBody cb1 cb2).mass = cb1.mass + cb2.mass := rfl
  rw [this] at hmass
  norm_num [cb1, cb2] at hmass

end
